import Mathlib

/-!
# Push-notification backend: token registry and feedback dispatcher

A shallow embedding of `backend_api/services/database-service.js`,
`backend_api/routes/users.js` and `backend_api/routes/notifications.js`.

Modelling conventions
* A SQL table is the list of its rows; a statement is a function on that list.
  SQL `=` on `NVARCHAR` values is string equality, `GETDATE()` is the `now`
  argument, and `DATEADD(day, n, t)` adds `n` whole days to `t`.
* Timestamps are integers counting milliseconds.
* The connection pool never fails in the model: the `catch` blocks of the
  service functions only log and re-throw, so they add no behaviour.  A service
  function whose parameter the driver can reject before any SQL is sent returns
  the table together with an `Except` value.
* A route handler is a function of the request body, its collaborators and an
  explicit world state threaded through every collaborator call.  A collaborator
  either resolves to a value or throws (`Except String _`, the string being the
  error message).  The handler also returns the list of collaborator calls it
  made, in order.
-/

namespace PushBackend

/-! ## JavaScript values received in a request body -/

/-- A value that `req.body` can hold for a field (`undefined` when the field is
absent).  Numbers are kept as integers: the handlers only test them for
truthiness, and every non-integral number is truthy like a non-zero integer. -/
inductive JsValue where
  | undefined : JsValue
  | null : JsValue
  | bool (b : Bool) : JsValue
  | number (n : Int) : JsValue
  | string (s : String) : JsValue
  | array (items : List JsValue) : JsValue
  | object (fields : List (String × JsValue)) : JsValue

/-- JavaScript truthiness, the test behind `!x` and `if (x)`. -/
def JsValue.truthy : JsValue → Bool
  | .undefined => false
  | .null => false
  | .bool b => b
  | .number n => n != 0
  | .string s => s != ""
  | .array _ => true
  | .object _ => true

/-- The test `v === s` for a string literal `s` (what `Array.prototype.includes`
applies to each element of an array of string literals). -/
def JsValue.isString : JsValue → String → Bool
  | .string t, s => t == s
  | _, _ => false

/-! ## Time -/

/-- Milliseconds since an arbitrary epoch. -/
abbrev Timestamp := Int

/-- Length of one day. -/
def msPerDay : Int := 86400000

/-- SQL `DATEADD(day, n, t)`. -/
def dateAddDay (n : Int) (t : Timestamp) : Timestamp := t + n * msPerDay

/-! ## Tables -/

/-- A row of `user_tokens`. -/
structure UserToken where
  id : Nat
  user_id : String
  fcm_token : String
  platform : String
  created_at : Timestamp
  updated_at : Timestamp
deriving DecidableEq, Repr

/-- A row of `notification_history`. -/
structure NotificationRecord where
  id : Int
  user_id : String
  title : String
  body : String
  data : String
  feedback_id : Option String
  created_at : Timestamp
  is_read : Bool
  read_at : Option Timestamp
deriving DecidableEq, Repr

/-- A row of `customerfeedback`. -/
structure CustomerFeedback where
  id : String
  customer_name : String
  feedback_content : String
  created_at : Timestamp
  assigned_user_id : Option String
deriving DecidableEq, Repr

/-- The object `{ success: true }` the write operations resolve to. -/
structure OpResult where
  success : Bool
deriving DecidableEq, Repr

/-- The object `{ success, deletedCount }` of `cleanupOldTokens`. -/
structure CleanupResult where
  success : Bool
  deletedCount : Nat
deriving DecidableEq, Repr

/-! ## database-service.js -/

/-- The predicate `WHERE user_id = @userId AND fcm_token = @fcmToken`. -/
def tokenKeyIs (userId fcmToken : String) (row : UserToken) : Bool :=
  row.user_id == userId && row.fcm_token == fcmToken

/-- `saveUserToken(userId, fcmToken, platform = 'ios')`: `none` for `platform`
is an omitted argument.  `freshId` is the `id` the store gives to an inserted
row (the column is not set by the `INSERT`). -/
def saveUserToken (freshId : Nat) (now : Timestamp) (userId fcmToken : String)
    (platform : Option String) (user_tokens : List UserToken) :
    List UserToken × OpResult :=
  let platform := platform.getD "ios"
  let existingToken := user_tokens.filter (tokenKeyIs userId fcmToken)
  if existingToken.length > 0 then
    (user_tokens.map (fun row =>
        if tokenKeyIs userId fcmToken row then
          { row with platform := platform, updated_at := now }
        else row),
      { success := true })
  else
    (user_tokens ++
        [{ id := freshId, user_id := userId, fcm_token := fcmToken,
           platform := platform, created_at := now, updated_at := now }],
      { success := true })

/-- The predicate
`WHERE user_id = @userId AND created_at > DATEADD(day, -30, GETDATE())`. -/
def isActiveTokenOf (now : Timestamp) (userId : String) (row : UserToken) : Bool :=
  row.user_id == userId && decide (row.created_at > dateAddDay (-30) now)

/-- The order `ORDER BY updated_at DESC`: `a` may precede `b`. -/
def updatedNotBefore (a b : UserToken) : Prop := b.updated_at ≤ a.updated_at

instance : DecidableRel updatedNotBefore :=
  fun a b => inferInstanceAs (Decidable (b.updated_at ≤ a.updated_at))

/-- `getUserTokens(userId)`.  SQL leaves the relative order of rows with equal
`updated_at` open; the model sorts stably. -/
def getUserTokens (now : Timestamp) (userId : String) (user_tokens : List UserToken) :
    List String :=
  ((user_tokens.filter (isActiveTokenOf now userId)).insertionSort updatedNotBefore).map
    (fun row => row.fcm_token)

/-- `removeUserToken(userId, fcmToken)`. -/
def removeUserToken (userId fcmToken : String) (user_tokens : List UserToken) :
    List UserToken × OpResult :=
  (user_tokens.filter (fun row => !tokenKeyIs userId fcmToken row), { success := true })

/-- The predicate `WHERE id = @notificationId AND user_id = @userId`. -/
def notificationKeyIs (notificationId : Int) (userId : String)
    (row : NotificationRecord) : Bool :=
  row.id == notificationId && row.user_id == userId

/-- Smallest number a parameter declared `sql.Int` accepts. -/
def sqlIntMin : Int := -2147483648

/-- Largest number a parameter declared `sql.Int` accepts. -/
def sqlIntMax : Int := 2147483647

/-- `markNotificationAsRead(notificationId, userId)`: the new table and what the
promise settles to.  The id is bound with `.input('notificationId', sql.Int, _)`:
for a number outside the 32-bit range the driver rejects the parameter before
any SQL is sent, the `catch` block logs and re-throws, and the table stays as it
was.  `notificationId` is the integer the argument denotes. -/
def markNotificationAsRead (now : Timestamp) (notificationId : Int) (userId : String)
    (notification_history : List NotificationRecord) :
    List NotificationRecord × Except String OpResult :=
  if notificationId < sqlIntMin ∨ sqlIntMax < notificationId then
    (notification_history,
      .error "Validation failed for parameter 'notificationId'. Value must be between -2147483648 and 2147483647, inclusive.")
  else
    (notification_history.map (fun row =>
        if notificationKeyIs notificationId userId row then
          { row with is_read := true, read_at := some now }
        else row),
      .ok { success := true })

/-- The object `getFeedbackDetails` builds from the first matching row. -/
structure FeedbackDetails where
  id : String
  customerName : String
  content : String
  createdAt : Timestamp
  assignedUserId : Option String
deriving DecidableEq, Repr

/-- `getFeedbackDetails(feedbackId)`: the first row with that id, or `null`. -/
def getFeedbackDetails (feedbackId : String) (customerfeedback : List CustomerFeedback) :
    Option FeedbackDetails :=
  let recordset := customerfeedback.filter (fun row => row.id == feedbackId)
  match recordset with
  | feedback :: _ =>
    some { id := feedback.id, customerName := feedback.customer_name,
           content := feedback.feedback_content, createdAt := feedback.created_at,
           assignedUserId := feedback.assigned_user_id }
  | [] => none

/-- The predicate `WHERE created_at < DATEADD(day, -30, GETDATE())`. -/
def isOldToken (now : Timestamp) (row : UserToken) : Bool :=
  decide (row.created_at < dateAddDay (-30) now)

/-- `cleanupOldTokens()`: `deletedCount` is `rowsAffected[0]`, the number of
rows the `DELETE` matched. -/
def cleanupOldTokens (now : Timestamp) (user_tokens : List UserToken) :
    List UserToken × CleanupResult :=
  (user_tokens.filter (fun row => !isOldToken now row),
    { success := true, deletedCount := (user_tokens.filter (isOldToken now)).length })

/-! ## HTTP responses -/

/-- The result object of `sendNewFeedbackNotification`: a `success` flag with a
message id or an error text. -/
structure SendResult where
  success : Bool
  messageId : Option String
  error : Option String
deriving DecidableEq, Repr

/-- An element `{ userId, result }` of the `results` array. -/
structure DispatchDetail where
  userId : String
  result : SendResult
deriving DecidableEq, Repr

/-- The `summary` object of the dispatch response. -/
structure Summary where
  totalUsers : Nat
  successCount : Nat
  failureCount : Nat
deriving DecidableEq, Repr

/-- The JSON bodies the handlers send. -/
inductive ResponseBody where
  /-- The body `{ error, message }`. -/
  | failure (error message : String) : ResponseBody
  /-- The body `{ success, message }`. -/
  | plain (success : Bool) (message : String) : ResponseBody
  /-- The body `{ success, message, summary, details }`. -/
  | processed (success : Bool) (message : String) (summary : Summary)
      (details : List DispatchDetail) : ResponseBody
deriving DecidableEq, Repr

/-- What `res.status(code).json(body)` sends. -/
structure Response where
  status : Nat
  body : ResponseBody
deriving DecidableEq, Repr

/-! ## routes/users.js -/

/-- The fields `POST /fcm-token` reads from `req.body`. -/
structure FcmTokenBody where
  fcm_token : JsValue
  platform : JsValue
  user_id : JsValue

/-- The object `validateToken` resolves to. -/
structure TokenValidation where
  valid : Bool
deriving DecidableEq, Repr

/-- The functions `routes/users.js` imports, over a world state `W`. -/
structure UserCollaborators (W : Type) where
  validateToken : JsValue → W → Except String TokenValidation × W
  saveUserToken : JsValue → JsValue → JsValue → W → Except String OpResult × W

/-- A collaborator call made by `POST /fcm-token`. -/
inductive UserCall where
  | validateToken (fcmToken : JsValue) : UserCall
  | saveUserToken (userId fcmToken platform : JsValue) : UserCall

/-- Whether a recorded call is a call of `saveUserToken`. -/
def UserCall.isSave : UserCall → Bool
  | .saveUserToken _ _ _ => true
  | .validateToken _ => false

/-- Outcome of one run of a `users.js` handler. -/
structure UserRun (W : Type) where
  response : Response
  world : W
  calls : List UserCall

/-- The handler of `router.post('/fcm-token')`. -/
def postFcmToken {W : Type} (c : UserCollaborators W) (body : FcmTokenBody) (w : W) :
    UserRun W :=
  let fcm_token := body.fcm_token
  let platform := body.platform
  let user_id := body.user_id
  if !fcm_token.truthy || !user_id.truthy then
    { response := ⟨400, .failure "Missing required fields" "fcm_token and user_id are required"⟩,
      world := w, calls := [] }
  else if !platform.truthy || !(platform.isString "ios" || platform.isString "android") then
    { response := ⟨400, .failure "Invalid platform"
        "platform must be either \"ios\" or \"android\""⟩,
      world := w, calls := [] }
  else
    match c.validateToken fcm_token w with
    | (.error _, w1) =>
      { response := ⟨500, .failure "Internal server error" "Failed to save FCM token"⟩,
        world := w1, calls := [.validateToken fcm_token] }
    | (.ok tokenValidation, w1) =>
      if !tokenValidation.valid then
        { response := ⟨400, .failure "Invalid FCM token"
            "The provided FCM token is not valid"⟩,
          world := w1, calls := [.validateToken fcm_token] }
      else
        match c.saveUserToken user_id fcm_token platform w1 with
        | (.error _, w2) =>
          { response := ⟨500, .failure "Internal server error" "Failed to save FCM token"⟩,
            world := w2,
            calls := [.validateToken fcm_token, .saveUserToken user_id fcm_token platform] }
        | (.ok _, w2) =>
          { response := ⟨200, .plain true "FCM token saved successfully"⟩,
            world := w2,
            calls := [.validateToken fcm_token, .saveUserToken user_id fcm_token platform] }

/-! ## routes/notifications.js -/

/-- The fields `POST /new-feedback` reads from `req.body`. -/
structure NewFeedbackBody where
  feedback_id : JsValue
  customer_name : JsValue
  feedback_content : JsValue

/-- The object passed to `sendNewFeedbackNotification` for each recipient. -/
structure FeedbackPayload where
  id : JsValue
  customerName : String
  content : String
  createdAt : Timestamp

/-- The functions `POST /new-feedback` calls, over a world state `W`. -/
structure NotificationCollaborators (W : Type) where
  getFeedbackDetails : JsValue → W → Except String (Option FeedbackDetails) × W
  getUsersForFeedbackNotification : JsValue → W → Except String (List String) × W
  sendNewFeedbackNotification :
    String → FeedbackPayload → W → Except String SendResult × W

/-- A collaborator call made by `POST /new-feedback`. -/
inductive NotificationCall where
  | getFeedbackDetails (feedbackId : JsValue) : NotificationCall
  | getUsersForFeedbackNotification (feedbackId : JsValue) : NotificationCall
  | sendNewFeedbackNotification (userId : String) (feedback : FeedbackPayload) :
      NotificationCall

/-- Whether a recorded call is a call of `getUsersForFeedbackNotification`. -/
def NotificationCall.isGetUsers : NotificationCall → Bool
  | .getUsersForFeedbackNotification _ => true
  | _ => false

/-- Whether a recorded call is a call of `sendNewFeedbackNotification`. -/
def NotificationCall.isSend : NotificationCall → Bool
  | .sendNewFeedbackNotification _ _ => true
  | _ => false

/-- Outcome of one run of a `notifications.js` handler. -/
structure NotificationRun (W : Type) where
  response : Response
  world : W
  calls : List NotificationCall

/-- The entry pushed to `results` for one recipient: the resolved result, or
`{ success: false, error: error.message }` in the `catch` branch. -/
def detailOf (userId : String) (outcome : Except String SendResult) : DispatchDetail :=
  match outcome with
  | .ok result => { userId := userId, result := result }
  | .error message =>
    { userId := userId,
      result := { success := false, messageId := none, error := some message } }

/-- The loop `for (const userId of userIds) { try { ... } catch { ... } }`:
returns `results`, the world after the last send, and the sends made. -/
def dispatchLoop {W : Type}
    (send : String → FeedbackPayload → W → Except String SendResult × W)
    (feedback : FeedbackPayload) : List String → W →
    List DispatchDetail × W × List NotificationCall
  | [], w => ([], w, [])
  | userId :: rest, w =>
    match send userId feedback w with
    | (outcome, w1) =>
      match dispatchLoop send feedback rest w1 with
      | (results, w2, calls) =>
        (detailOf userId outcome :: results, w2,
          .sendNewFeedbackNotification userId feedback :: calls)

/-- The dispatch stage of `POST /new-feedback`: the loop, the two counts and the
final `res.status(200).json(...)`. -/
def dispatchAndSummarize {W : Type}
    (send : String → FeedbackPayload → W → Except String SendResult × W)
    (feedback : FeedbackPayload) (userIds : List String) (w : W) :
    Response × W × List NotificationCall :=
  match dispatchLoop send feedback userIds w with
  | (results, w1, calls) =>
    let successCount := (results.filter (fun r => r.result.success)).length
    let failureCount := results.length - successCount
    (⟨200, .processed true "Feedback notifications processed"
        { totalUsers := userIds.length, successCount := successCount,
          failureCount := failureCount }
        results⟩,
      w1, calls)

/-- The handler of `router.post('/new-feedback')`. -/
def postNewFeedback {W : Type} (c : NotificationCollaborators W) (body : NewFeedbackBody)
    (w : W) : NotificationRun W :=
  let feedback_id := body.feedback_id
  if !feedback_id.truthy then
    { response := ⟨400, .failure "Missing required field" "feedback_id is required"⟩,
      world := w, calls := [] }
  else
    match c.getFeedbackDetails feedback_id w with
    | (.error _, w1) =>
      { response := ⟨500, .failure "Internal server error"
          "Failed to process new feedback notification"⟩,
        world := w1, calls := [.getFeedbackDetails feedback_id] }
    | (.ok none, w1) =>
      { response := ⟨404, .failure "Feedback not found"
          "The specified feedback does not exist"⟩,
        world := w1, calls := [.getFeedbackDetails feedback_id] }
    | (.ok (some feedbackDetails), w1) =>
      match c.getUsersForFeedbackNotification feedback_id w1 with
      | (.error _, w2) =>
        { response := ⟨500, .failure "Internal server error"
            "Failed to process new feedback notification"⟩,
          world := w2,
          calls := [.getFeedbackDetails feedback_id,
                    .getUsersForFeedbackNotification feedback_id] }
      | (.ok userIds, w2) =>
        if userIds.length = 0 then
          { response := ⟨200, .plain true "No users to notify for this feedback"⟩,
            world := w2,
            calls := [.getFeedbackDetails feedback_id,
                      .getUsersForFeedbackNotification feedback_id] }
        else
          match dispatchAndSummarize c.sendNewFeedbackNotification
              { id := feedback_id, customerName := feedbackDetails.customerName,
                content := feedbackDetails.content,
                createdAt := feedbackDetails.createdAt } userIds w2 with
          | (response, w3, sends) =>
            { response := response, world := w3,
              calls := [.getFeedbackDetails feedback_id,
                        .getUsersForFeedbackNotification feedback_id] ++ sends }

/-! ## Vocabulary of the statements -/

/-- The outcomes `sendNewFeedbackNotification` yields when it is called once for
each recipient of the list in turn, starting in world `w`. -/
def sendOutcomes {W : Type}
    (send : String → FeedbackPayload → W → Except String SendResult × W)
    (feedback : FeedbackPayload) : List String → W → List (Except String SendResult)
  | [], _ => []
  | userId :: rest, w =>
    (send userId feedback w).1 :: sendOutcomes send feedback rest (send userId feedback w).2

/-- A send that failed: it threw, or it returned a result whose `success` is
false. -/
def sendFailed : Except String SendResult → Bool
  | .ok result => !result.success
  | .error _ => true

/-- The `success` flag of a response body, when it has one. -/
def Response.success? (r : Response) : Option Bool :=
  match r.body with
  | .processed success _ _ _ => some success
  | .plain success _ => some success
  | .failure _ _ => none

/-- Number of rows of `user_tokens` stored for the pair `(userId, fcmToken)`. -/
def rowsFor (userId fcmToken : String) (user_tokens : List UserToken) : Nat :=
  (user_tokens.filter (tokenKeyIs userId fcmToken)).length

/-- The rows of `user_tokens` stored for pairs other than `(userId, fcmToken)`,
in table order. -/
def rowsOfOtherPairs (userId fcmToken : String) (user_tokens : List UserToken) :
    List UserToken :=
  user_tokens.filter (fun row => !tokenKeyIs userId fcmToken row)

/-- At most one row per `(user_id, fcm_token)` pair. -/
def PairUnique (user_tokens : List UserToken) : Prop :=
  ∀ userId fcmToken, rowsFor userId fcmToken user_tokens ≤ 1

/-! ## Sample collaborators, used to instantiate the statements -/

/-- A feedback store holding the ids `fb-1` and `fb-2`; the world is the list
of users a push reached. -/
def sampleGetFeedbackDetails (feedbackId : JsValue) (w : List String) :
    Except String (Option FeedbackDetails) × List String :=
  if feedbackId.isString "fb-1" then
    (.ok (some { id := "fb-1", customerName := "Ada", content := "Late delivery",
                 createdAt := 1000, assignedUserId := some "alice" }), w)
  else if feedbackId.isString "fb-2" then
    (.ok (some { id := "fb-2", customerName := "Bo", content := "Thanks",
                 createdAt := 2000, assignedUserId := none }), w)
  else (.ok none, w)

/-- Three recipients for `fb-1`, none for any other id. -/
def sampleGetUsers (feedbackId : JsValue) (w : List String) :
    Except String (List String) × List String :=
  if feedbackId.isString "fb-1" then (.ok ["alice", "bob", "carol"], w) else (.ok [], w)

/-- A push that throws for `bob` and succeeds for everybody else. -/
def sampleSend (userId : String) (_feedback : FeedbackPayload) (w : List String) :
    Except String SendResult × List String :=
  if userId == "bob" then (.error "push failed", w)
  else (.ok { success := true, messageId := some "m-1", error := none }, w ++ [userId])

/-- The three sample collaborators together. -/
def sampleNotificationCollaborators : NotificationCollaborators (List String) where
  getFeedbackDetails := sampleGetFeedbackDetails
  getUsersForFeedbackNotification := sampleGetUsers
  sendNewFeedbackNotification := sampleSend

/-- A request body carrying only a feedback id. -/
def bodyFor (feedbackId : String) : NewFeedbackBody where
  feedback_id := .string feedbackId
  customer_name := .undefined
  feedback_content := .undefined

/-- Two stored tokens of two users, both registered at time 0. -/
def sampleTokens : List UserToken :=
  [{ id := 1, user_id := "alice", fcm_token := "tok-a", platform := "ios",
     created_at := 0, updated_at := 0 },
   { id := 2, user_id := "bob", fcm_token := "tok-b", platform := "android",
     created_at := 0, updated_at := 0 }]

/-- A row with its `read_at` column blanked: what is left to compare when
`read_at` is set aside. -/
def withoutReadAt (row : NotificationRecord) : NotificationRecord :=
  { row with read_at := none }

/-- One unread notification of alice and one of bob. -/
def sampleHistory : List NotificationRecord :=
  [{ id := 7, user_id := "alice", title := "New feedback", body := "Late delivery",
     data := "", feedback_id := some "fb-1", created_at := 500, is_read := false,
     read_at := none },
   { id := 8, user_id := "bob", title := "New feedback", body := "Late delivery",
     data := "", feedback_id := some "fb-1", created_at := 500, is_read := false,
     read_at := none }]

/-- Two unread notifications of alice around one of bob that was read at time
300. -/
def sampleInbox : List NotificationRecord :=
  [{ id := 7, user_id := "alice", title := "New feedback", body := "Late delivery",
     data := "", feedback_id := some "fb-1", created_at := 100, is_read := false,
     read_at := none },
   { id := 8, user_id := "bob", title := "New feedback", body := "Late delivery",
     data := "", feedback_id := some "fb-1", created_at := 100, is_read := true,
     read_at := some 300 },
   { id := 9, user_id := "alice", title := "New feedback", body := "Refund",
     data := "", feedback_id := some "fb-3", created_at := 200, is_read := false,
     read_at := none }]

/-- A token of alice registered `days` days before `now`, with the given id. -/
def tokenAged (id : Nat) (days : Int) (now : Timestamp) : UserToken :=
  { id := id, user_id := "alice", fcm_token := "tok-a", platform := "ios",
    created_at := now - days * msPerDay, updated_at := now - days * msPerDay }

instance : IsTotal UserToken updatedNotBefore :=
  ⟨fun a b => Int.le_total b.updated_at a.updated_at⟩

instance : IsTrans UserToken updatedNotBefore :=
  ⟨fun _ _ _ hab hbc => Int.le_trans hbc hab⟩

/-- Tokens seen at time `40 * msPerDay`: alice has one registered on day 1 and
two registered on days 20 and 30, the older of which was updated last; bob has
one registered on day 35. -/
def sampleRegistry : List UserToken :=
  [{ id := 1, user_id := "alice", fcm_token := "tok-old", platform := "ios",
     created_at := 1 * msPerDay, updated_at := 39 * msPerDay },
   { id := 2, user_id := "alice", fcm_token := "tok-mid", platform := "ios",
     created_at := 30 * msPerDay, updated_at := 30 * msPerDay },
   { id := 3, user_id := "bob", fcm_token := "tok-bob", platform := "android",
     created_at := 35 * msPerDay, updated_at := 35 * msPerDay },
   { id := 4, user_id := "alice", fcm_token := "tok-new", platform := "android",
     created_at := 20 * msPerDay, updated_at := 38 * msPerDay }]

/-- A token check that rejects the token `tok-bad` and accepts every other
one; the world is the list of saved `(user, token, platform)` triples. -/
def sampleValidateToken (fcmToken : JsValue) (w : List (JsValue × JsValue × JsValue)) :
    Except String TokenValidation × List (JsValue × JsValue × JsValue) :=
  if fcmToken.isString "tok-bad" then (.ok { valid := false }, w)
  else (.ok { valid := true }, w)

/-- A store that never fails and records what it is asked to save. -/
def sampleSaveUserToken (userId fcmToken platform : JsValue)
    (w : List (JsValue × JsValue × JsValue)) :
    Except String OpResult × List (JsValue × JsValue × JsValue) :=
  (.ok { success := true }, w ++ [(userId, fcmToken, platform)])

/-- The two sample collaborators of `users.js` together. -/
def sampleUserCollaborators : UserCollaborators (List (JsValue × JsValue × JsValue)) where
  validateToken := sampleValidateToken
  saveUserToken := sampleSaveUserToken

/-- A registration request with three string fields. -/
def registration (fcmToken platform userId : String) : FcmTokenBody where
  fcm_token := .string fcmToken
  platform := .string platform
  user_id := .string userId

/-! ## getUsersForFeedbackNotification -/

/-- `getUsersForFeedbackNotification(feedbackId)`: the distinct non-null
assignees of the rows with that id, in `UNION` (duplicates removed) with the one
row `'admin'`.  SQL leaves the order of the result open; the model lists the
assignees in table order. -/
def getUsersForFeedbackNotification (feedbackId : String)
    (customerfeedback : List CustomerFeedback) : List String :=
  let assigned :=
    ((customerfeedback.filter (fun cf => cf.id == feedbackId && cf.assigned_user_id.isSome)).filterMap
      (fun cf => cf.assigned_user_id)).dedup
  (assigned ++ ["admin"]).dedup

/-! ## PUT /:notificationId/read -/

/-- The field `PUT /:notificationId/read` reads from `req.body`. -/
structure MarkReadBody where
  user_id : JsValue

/-- Outcome of one run of `PUT /:notificationId/read`: `calls` lists the
argument pairs of the calls of `markNotificationAsRead`. -/
structure MarkReadRun (W : Type) where
  response : Response
  world : W
  calls : List (String × JsValue)

/-- The handler of `router.put('/:notificationId/read')`, over the imported
`markNotificationAsRead` and a world state `W`. -/
def putNotificationRead {W : Type}
    (markAsRead : String → JsValue → W → Except String OpResult × W)
    (notificationId : String) (body : MarkReadBody) (w : W) : MarkReadRun W :=
  let user_id := body.user_id
  if !user_id.truthy then
    { response := ⟨400, .failure "Missing required field" "user_id is required"⟩,
      world := w, calls := [] }
  else
    match markAsRead notificationId user_id w with
    | (.error _, w1) =>
      { response := ⟨500, .failure "Internal server error"
          "Failed to mark notification as read"⟩,
        world := w1, calls := [(notificationId, user_id)] }
    | (.ok _, w1) =>
      { response := ⟨200, .plain true "Notification marked as read"⟩,
        world := w1, calls := [(notificationId, user_id)] }

/-- Three feedback rows: `fb-1` assigned to alice, `fb-2` unassigned, `fb-3`
assigned to the user called admin. -/
def sampleFeedback : List CustomerFeedback :=
  [{ id := "fb-1", customer_name := "Ada", feedback_content := "Late delivery",
     created_at := 1000, assigned_user_id := some "alice" },
   { id := "fb-2", customer_name := "Bo", feedback_content := "Thanks",
     created_at := 2000, assigned_user_id := none },
   { id := "fb-3", customer_name := "Cy", feedback_content := "Refund",
     created_at := 3000, assigned_user_id := some "admin" }]

/-- The fields of a notification that `markNotificationAsRead` has no
assignment for. -/
def sameContent (before after : NotificationRecord) : Prop :=
  after.id = before.id ∧ after.user_id = before.user_id ∧ after.title = before.title ∧
    after.body = before.body ∧ after.data = before.data ∧
    after.feedback_id = before.feedback_id ∧ after.created_at = before.created_at

/-! ## The dispatch loop -/

theorem detailOf_success (userId : String) (outcome : Except String SendResult) :
    (detailOf userId outcome).result.success = !sendFailed outcome := by
  cases outcome <;> simp [detailOf, sendFailed]

theorem detailOf_userId (userId : String) (outcome : Except String SendResult) :
    (detailOf userId outcome).userId = userId := by
  cases outcome <;> rfl

theorem sendOutcomes_length {W : Type}
    (send : String → FeedbackPayload → W → Except String SendResult × W)
    (feedback : FeedbackPayload) (userIds : List String) (w : W) :
    (sendOutcomes send feedback userIds w).length = userIds.length := by
  induction userIds generalizing w with
  | nil => rfl
  | cons u rest ih => simp [sendOutcomes, ih]

theorem dispatchLoop_results {W : Type}
    (send : String → FeedbackPayload → W → Except String SendResult × W)
    (feedback : FeedbackPayload) (userIds : List String) (w : W) :
    (dispatchLoop send feedback userIds w).1 =
      List.zipWith detailOf userIds (sendOutcomes send feedback userIds w) := by
  induction userIds generalizing w with
  | nil => rfl
  | cons u rest ih =>
    rcases hs : send u feedback w with ⟨o, w1⟩
    simp [dispatchLoop, sendOutcomes, hs, ih]

theorem dispatchLoop_calls {W : Type}
    (send : String → FeedbackPayload → W → Except String SendResult × W)
    (feedback : FeedbackPayload) (userIds : List String) (w : W) :
    (dispatchLoop send feedback userIds w).2.2 =
      userIds.map (fun u => NotificationCall.sendNewFeedbackNotification u feedback) := by
  induction userIds generalizing w with
  | nil => rfl
  | cons u rest ih =>
    rcases hs : send u feedback w with ⟨o, w1⟩
    simp [dispatchLoop, hs, ih]

theorem zipWith_detailOf_length (userIds : List String)
    (outcomes : List (Except String SendResult)) (h : outcomes.length = userIds.length) :
    (List.zipWith detailOf userIds outcomes).length = userIds.length := by
  simp [h]

theorem zipWith_detailOf_userIds : ∀ (userIds : List String)
    (outcomes : List (Except String SendResult)), outcomes.length = userIds.length →
    (List.zipWith detailOf userIds outcomes).map (fun d => d.userId) = userIds
  | [], [], _ => rfl
  | [], _ :: _, h => by simp at h
  | _ :: _, [], h => by simp at h
  | u :: us, o :: os, h => by
    have h1 : os.length = us.length := by simpa using h
    simp [detailOf_userId, zipWith_detailOf_userIds us os h1]

theorem zipWith_detailOf_successes : ∀ (userIds : List String)
    (outcomes : List (Except String SendResult)), outcomes.length = userIds.length →
    ((List.zipWith detailOf userIds outcomes).filter (fun r => r.result.success)).length =
      outcomes.countP (fun o => !sendFailed o)
  | [], [], _ => rfl
  | [], _ :: _, h => by simp at h
  | _ :: _, [], h => by simp at h
  | u :: us, o :: os, h => by
    have h1 : os.length = us.length := by simpa using h
    have ih := zipWith_detailOf_successes us os h1
    by_cases hf : sendFailed o = true
    · simp [List.filter_cons, List.countP_cons, detailOf_success, hf, ih]
    · simp [List.filter_cons, List.countP_cons, detailOf_success, hf, ih]

theorem countP_failed_add (outcomes : List (Except String SendResult)) :
    outcomes.countP (fun o => !sendFailed o) + outcomes.countP sendFailed =
      outcomes.length := by
  induction outcomes with
  | nil => rfl
  | cons o os ih =>
    by_cases hf : sendFailed o = true
    · simp [List.countP_cons, hf]; omega
    · simp [List.countP_cons, hf]; omega

theorem dispatchAndSummarize_eq {W : Type}
    (send : String → FeedbackPayload → W → Except String SendResult × W)
    (feedback : FeedbackPayload) (userIds : List String) (w : W) :
    dispatchAndSummarize send feedback userIds w =
      (⟨200, .processed true "Feedback notifications processed"
          { totalUsers := userIds.length,
            successCount :=
              (sendOutcomes send feedback userIds w).countP (fun o => !sendFailed o),
            failureCount := (sendOutcomes send feedback userIds w).countP sendFailed }
          (List.zipWith detailOf userIds (sendOutcomes send feedback userIds w))⟩,
        (dispatchLoop send feedback userIds w).2.1,
        userIds.map (fun u => NotificationCall.sendNewFeedbackNotification u feedback)) := by
  have hlen := sendOutcomes_length send feedback userIds w
  have hres := dispatchLoop_results send feedback userIds w
  have hcalls := dispatchLoop_calls send feedback userIds w
  have hsucc := zipWith_detailOf_successes userIds _ hlen
  have hadd := countP_failed_add (sendOutcomes send feedback userIds w)
  rcases hl : dispatchLoop send feedback userIds w with ⟨results, w1, calls⟩
  rw [hl] at hres hcalls
  simp only at hres hcalls
  subst hres hcalls
  simp only [dispatchAndSummarize, hl, hsucc]
  have hzl := zipWith_detailOf_length userIds _ hlen
  rw [hzl]
  have : userIds.length -
      (sendOutcomes send feedback userIds w).countP (fun o => !sendFailed o) =
      (sendOutcomes send feedback userIds w).countP sendFailed := by omega
  rw [this]

theorem postNewFeedback_dispatch {W : Type} (c : NotificationCollaborators W)
    (body : NewFeedbackBody) (w w1 w2 : W) (fd : FeedbackDetails) (userIds : List String)
    (hid : body.feedback_id.truthy = true)
    (hfb : c.getFeedbackDetails body.feedback_id w = (.ok (some fd), w1))
    (husers : c.getUsersForFeedbackNotification body.feedback_id w1 = (.ok userIds, w2))
    (hne : userIds ≠ []) :
    (postNewFeedback c body w).response =
        (dispatchAndSummarize c.sendNewFeedbackNotification
          { id := body.feedback_id, customerName := fd.customerName,
            content := fd.content, createdAt := fd.createdAt } userIds w2).1 ∧
      (postNewFeedback c body w).calls =
        [.getFeedbackDetails body.feedback_id,
         .getUsersForFeedbackNotification body.feedback_id] ++
        (dispatchAndSummarize c.sendNewFeedbackNotification
          { id := body.feedback_id, customerName := fd.customerName,
            content := fd.content, createdAt := fd.createdAt } userIds w2).2.2 := by
  have hlen : ¬ userIds.length = 0 := by
    intro h
    exact hne (List.length_eq_zero.mp h)
  simp [postNewFeedback, hid, hfb, husers, hlen]

/-! ## POST /new-feedback -/

/-- C1: when the feedback id resolves and the recipient list is not empty, the
handler answers 200 with a summary in which successCount + failureCount equals
totalUsers, and totalUsers is both the number of recipients and the length of
the details list, whatever the sends return or throw. -/
theorem postNewFeedback_summary_counts {W : Type} (c : NotificationCollaborators W)
    (body : NewFeedbackBody) (w w1 w2 : W) (fd : FeedbackDetails) (userIds : List String)
    (hid : body.feedback_id.truthy = true)
    (hfb : c.getFeedbackDetails body.feedback_id w = (.ok (some fd), w1))
    (husers : c.getUsersForFeedbackNotification body.feedback_id w1 = (.ok userIds, w2))
    (hne : userIds ≠ []) :
    ∃ summary details,
      (postNewFeedback c body w).response =
        ⟨200, .processed true "Feedback notifications processed" summary details⟩ ∧
      summary.successCount + summary.failureCount = summary.totalUsers ∧
      summary.totalUsers = userIds.length ∧
      summary.totalUsers = details.length := by
  have h := (postNewFeedback_dispatch c body w w1 w2 fd userIds hid hfb husers hne).1
  rw [dispatchAndSummarize_eq] at h
  refine ⟨_, _, h, ?_, rfl, ?_⟩
  · simpa [sendOutcomes_length] using countP_failed_add (sendOutcomes
      c.sendNewFeedbackNotification
      { id := body.feedback_id, customerName := fd.customerName,
        content := fd.content, createdAt := fd.createdAt } userIds w2)
  · simp [sendOutcomes_length]

/-- C1, instantiated: three recipients, the second send throwing. -/
theorem postNewFeedback_summary_counts_witness :
    ∃ summary details,
      (postNewFeedback sampleNotificationCollaborators (bodyFor "fb-1") []).response =
        ⟨200, .processed true "Feedback notifications processed" summary details⟩ ∧
      summary.successCount + summary.failureCount = summary.totalUsers ∧
      summary.totalUsers = ["alice", "bob", "carol"].length ∧
      summary.totalUsers = details.length :=
  postNewFeedback_summary_counts sampleNotificationCollaborators (bodyFor "fb-1") [] [] []
    { id := "fb-1", customerName := "Ada", content := "Late delivery",
      createdAt := 1000, assignedUserId := some "alice" }
    ["alice", "bob", "carol"] (by decide) (by rfl) (by rfl) (by decide)

/-- C2: when the feedback id is non-empty and `getFeedbackDetails` resolves to
null, the handler answers 404 "Feedback not found"; the only collaborator call
is that lookup, so `getUsersForFeedbackNotification` and
`sendNewFeedbackNotification` are called zero times and the world is the one the
lookup left.  The database lookup resolves to null exactly when no
`customerfeedback` row has the id. -/
theorem postNewFeedback_unknown_feedback {W : Type} (c : NotificationCollaborators W)
    (body : NewFeedbackBody) (w w1 : W)
    (hid : body.feedback_id.truthy = true)
    (hfb : c.getFeedbackDetails body.feedback_id w = (.ok none, w1)) :
    (postNewFeedback c body w).response =
        ⟨404, .failure "Feedback not found" "The specified feedback does not exist"⟩ ∧
      (postNewFeedback c body w).calls = [.getFeedbackDetails body.feedback_id] ∧
      ((postNewFeedback c body w).calls.filter NotificationCall.isGetUsers).length = 0 ∧
      ((postNewFeedback c body w).calls.filter NotificationCall.isSend).length = 0 ∧
      (postNewFeedback c body w).world = w1 ∧
      (∀ (feedbackId : String) (customerfeedback : List CustomerFeedback),
        getFeedbackDetails feedbackId customerfeedback = none ↔
          ∀ row ∈ customerfeedback, row.id ≠ feedbackId) := by
  refine ⟨?_, ?_, ?_, ?_, ?_, ?_⟩
  · simp [postNewFeedback, hid, hfb]
  · simp [postNewFeedback, hid, hfb]
  · simp [postNewFeedback, hid, hfb, NotificationCall.isGetUsers]
  · simp [postNewFeedback, hid, hfb, NotificationCall.isSend]
  · simp [postNewFeedback, hid, hfb]
  · intro feedbackId customerfeedback
    unfold getFeedbackDetails
    constructor
    · intro h row hrow heq
      have hmem : row ∈ customerfeedback.filter (fun row => row.id == feedbackId) := by
        simp [List.mem_filter, hrow, heq]
      cases hf : customerfeedback.filter (fun row => row.id == feedbackId) with
      | nil => rw [hf] at hmem; simp at hmem
      | cons a l => rw [hf] at h; simp at h
    · intro h
      have hf : customerfeedback.filter (fun row => row.id == feedbackId) = [] := by
        rw [List.filter_eq_nil_iff]
        intro row hrow
        simpa using h row hrow
      simp [hf]

/-- C2, instantiated: the id `fb-9` is unknown to the sample store. -/
theorem postNewFeedback_unknown_feedback_witness :
    (postNewFeedback sampleNotificationCollaborators (bodyFor "fb-9") []).response =
        ⟨404, .failure "Feedback not found" "The specified feedback does not exist"⟩ ∧
      ((postNewFeedback sampleNotificationCollaborators (bodyFor "fb-9") []).calls.filter
        NotificationCall.isSend).length = 0 :=
  have h := postNewFeedback_unknown_feedback sampleNotificationCollaborators
    (bodyFor "fb-9") [] [] (by decide) (by rfl)
  ⟨h.1, h.2.2.2.1⟩

/-- C3: the dispatch stage calls `sendNewFeedbackNotification` once per
recipient in list order, whatever each call returns or throws; the details list
pairs each recipient, in the same order, with its outcome (a thrown error
becoming a failed result carrying the message); the response is 200 with
success true; failureCount is the number of sends that failed or threw and
successCount the number of the others; with three recipients of which only the
second fails, failureCount is 1 and successCount is 2.  The handler runs this
stage on every resolved, non-empty recipient list. -/
theorem dispatch_isolates_failures {W : Type}
    (send : String → FeedbackPayload → W → Except String SendResult × W)
    (feedback : FeedbackPayload) (userIds : List String) (w : W) :
    (dispatchAndSummarize send feedback userIds w).2.2 =
        userIds.map (fun u => NotificationCall.sendNewFeedbackNotification u feedback) ∧
      (sendOutcomes send feedback userIds w).length = userIds.length ∧
      (∃ summary details,
        (dispatchAndSummarize send feedback userIds w).1 =
          ⟨200, .processed true "Feedback notifications processed" summary details⟩ ∧
        details = List.zipWith detailOf userIds (sendOutcomes send feedback userIds w) ∧
        details.map (fun d => d.userId) = userIds ∧
        (∀ userId message, detailOf userId (.error message) =
          { userId := userId,
            result := { success := false, messageId := none, error := some message } }) ∧
        (∀ userId result, detailOf userId (.ok result) =
          { userId := userId, result := result }) ∧
        summary.failureCount = (sendOutcomes send feedback userIds w).countP sendFailed ∧
        summary.successCount =
          (sendOutcomes send feedback userIds w).countP (fun o => !sendFailed o) ∧
        (∀ o1 o2 o3, sendOutcomes send feedback userIds w = [o1, o2, o3] →
          sendFailed o1 = false → sendFailed o2 = true → sendFailed o3 = false →
          summary.failureCount = 1 ∧ summary.successCount = 2)) ∧
      (∀ (c : NotificationCollaborators W) (body : NewFeedbackBody) (w0 w1 : W)
          (fd : FeedbackDetails),
        body.feedback_id.truthy = true →
        c.getFeedbackDetails body.feedback_id w0 = (.ok (some fd), w1) →
        c.getUsersForFeedbackNotification body.feedback_id w1 = (.ok userIds, w) →
        userIds ≠ [] →
        c.sendNewFeedbackNotification = send →
        feedback = { id := body.feedback_id, customerName := fd.customerName,
                     content := fd.content, createdAt := fd.createdAt } →
        (postNewFeedback c body w0).response =
            (dispatchAndSummarize send feedback userIds w).1 ∧
          (postNewFeedback c body w0).calls.filter NotificationCall.isSend =
            (dispatchAndSummarize send feedback userIds w).2.2) := by
  have hlen := sendOutcomes_length send feedback userIds w
  refine ⟨?_, hlen, ?_, ?_⟩
  · rw [dispatchAndSummarize_eq]
  · refine ⟨_, _, by rw [dispatchAndSummarize_eq], rfl,
      zipWith_detailOf_userIds userIds _ hlen, fun _ _ => rfl, fun _ _ => rfl, rfl, rfl, ?_⟩
    intro o1 o2 o3 ho h1 h2 h3
    simp [ho, List.countP_cons, h1, h2, h3]
  · intro c body w0 w1 fd hid hfb husers hne hsend hfeedback
    subst hsend hfeedback
    have h := postNewFeedback_dispatch c body w0 w1 w fd userIds hid hfb husers hne
    refine ⟨h.1, ?_⟩
    rw [h.2, dispatchAndSummarize_eq]
    simp [List.filter_cons, NotificationCall.isSend, List.filter_map, Function.comp_def]

/-- C3, instantiated on the handler: of the recipients alice, bob and carol the
send to bob throws; all three sends are made in order, the failure is recorded
with its message, failureCount is 1 and successCount is 2. -/
theorem dispatch_isolates_failures_witness :
    (postNewFeedback sampleNotificationCollaborators (bodyFor "fb-1") []).response =
        ⟨200, .processed true "Feedback notifications processed"
          { totalUsers := 3, successCount := 2, failureCount := 1 }
          [⟨"alice", ⟨true, some "m-1", none⟩⟩,
           ⟨"bob", ⟨false, none, some "push failed"⟩⟩,
           ⟨"carol", ⟨true, some "m-1", none⟩⟩]⟩ ∧
      (postNewFeedback sampleNotificationCollaborators (bodyFor "fb-1") []).calls.filter
          NotificationCall.isSend =
        ["alice", "bob", "carol"].map (fun u =>
          NotificationCall.sendNewFeedbackNotification u
            { id := .string "fb-1", customerName := "Ada", content := "Late delivery",
              createdAt := 1000 }) :=
  have h := (dispatch_isolates_failures sampleSend
    { id := .string "fb-1", customerName := "Ada", content := "Late delivery",
      createdAt := 1000 } ["alice", "bob", "carol"] []).2.2.2
    sampleNotificationCollaborators (bodyFor "fb-1") [] []
    { id := "fb-1", customerName := "Ada", content := "Late delivery",
      createdAt := 1000, assignedUserId := some "alice" }
    (by decide) (by rfl) (by rfl) (by decide) (by rfl) (by rfl)
  ⟨h.1.trans (by rfl), h.2.trans (by rfl)⟩

/-- C4: when the feedback resolves and the resolved recipient list is empty,
the handler answers 200 with success true and the message "No users to notify
for this feedback", and calls `sendNewFeedbackNotification` zero times. -/
theorem postNewFeedback_no_recipients {W : Type} (c : NotificationCollaborators W)
    (body : NewFeedbackBody) (w w1 w2 : W) (fd : FeedbackDetails) (userIds : List String)
    (hid : body.feedback_id.truthy = true)
    (hfb : c.getFeedbackDetails body.feedback_id w = (.ok (some fd), w1))
    (husers : c.getUsersForFeedbackNotification body.feedback_id w1 = (.ok userIds, w2))
    (hempty : userIds.length = 0) :
    (postNewFeedback c body w).response =
        ⟨200, .plain true "No users to notify for this feedback"⟩ ∧
      (postNewFeedback c body w).response.success? = some true ∧
      ((postNewFeedback c body w).calls.filter NotificationCall.isSend).length = 0 ∧
      (postNewFeedback c body w).world = w2 := by
  simp [postNewFeedback, hid, hfb, husers, hempty, NotificationCall.isSend,
    Response.success?]

/-- C4, instantiated: the sample store resolves `fb-2` but lists no recipient
for it. -/
theorem postNewFeedback_no_recipients_witness :
    (postNewFeedback sampleNotificationCollaborators (bodyFor "fb-2") []).response =
        ⟨200, .plain true "No users to notify for this feedback"⟩ ∧
      ((postNewFeedback sampleNotificationCollaborators (bodyFor "fb-2") []).calls.filter
        NotificationCall.isSend).length = 0 :=
  have h := postNewFeedback_no_recipients sampleNotificationCollaborators
    (bodyFor "fb-2") [] [] []
    { id := "fb-2", customerName := "Bo", content := "Thanks",
      createdAt := 2000, assignedUserId := none } [] (by decide) (by rfl) (by rfl)
    (by rfl)
  ⟨h.1, h.2.2.1⟩

/-! ## saveUserToken -/

theorem tokenKeyIs_iff (userId fcmToken : String) (row : UserToken) :
    tokenKeyIs userId fcmToken row = true ↔
      row.user_id = userId ∧ row.fcm_token = fcmToken := by
  simp [tokenKeyIs]

theorem rowsFor_append (userId fcmToken : String) (l₁ l₂ : List UserToken) :
    rowsFor userId fcmToken (l₁ ++ l₂) =
      rowsFor userId fcmToken l₁ + rowsFor userId fcmToken l₂ := by
  simp [rowsFor]

theorem rowsFor_map_of_key_preserved (userId fcmToken : String) (f : UserToken → UserToken)
    (hf : ∀ row, (f row).user_id = row.user_id ∧ (f row).fcm_token = row.fcm_token)
    (l : List UserToken) :
    rowsFor userId fcmToken (l.map f) = rowsFor userId fcmToken l := by
  induction l with
  | nil => rfl
  | cons a l ih =>
    have hk : tokenKeyIs userId fcmToken (f a) = tokenKeyIs userId fcmToken a := by
      simp [tokenKeyIs, (hf a).1, (hf a).2]
    simp only [rowsFor, List.map_cons, List.filter_cons, hk] at ih ⊢
    split <;> simp [ih]

theorem map_update_eq_self_of_no_match (userId fcmToken : String) (f : UserToken → UserToken)
    (l : List UserToken) (h : rowsFor userId fcmToken l = 0) :
    l.map (fun row => if tokenKeyIs userId fcmToken row then f row else row) = l := by
  induction l with
  | nil => rfl
  | cons a l ih =>
    simp only [rowsFor, List.filter_cons] at h
    by_cases ha : tokenKeyIs userId fcmToken a = true
    · simp [ha] at h
    · simp only [ha] at h
      simp only [List.map_cons, ha]
      simp [ih (by simpa [rowsFor] using h)]

theorem rowsOfOtherPairs_map_update (userId fcmToken : String) (f : UserToken → UserToken)
    (hf : ∀ row, (f row).user_id = row.user_id ∧ (f row).fcm_token = row.fcm_token)
    (l : List UserToken) :
    rowsOfOtherPairs userId fcmToken
        (l.map (fun row => if tokenKeyIs userId fcmToken row then f row else row)) =
      rowsOfOtherPairs userId fcmToken l := by
  induction l with
  | nil => rfl
  | cons a l ih =>
    simp only [rowsOfOtherPairs] at ih
    by_cases ha : tokenKeyIs userId fcmToken a = true
    · have hfa : tokenKeyIs userId fcmToken (f a) = true := by
        rw [tokenKeyIs_iff] at ha ⊢
        exact ⟨(hf a).1.trans ha.1, (hf a).2.trans ha.2⟩
      simp [rowsOfOtherPairs, List.filter_cons, ha, hfa, ih]
    · simp [rowsOfOtherPairs, List.filter_cons, ha, ih]

theorem saveUserToken_of_absent (freshId : Nat) (now : Timestamp) (userId fcmToken : String)
    (platform : Option String) (l : List UserToken) (h : rowsFor userId fcmToken l = 0) :
    (saveUserToken freshId now userId fcmToken platform l).1 =
      l ++ [{ id := freshId, user_id := userId, fcm_token := fcmToken,
              platform := platform.getD "ios", created_at := now, updated_at := now }] := by
  simp only [rowsFor] at h
  simp [saveUserToken, h]

theorem saveUserToken_of_present (freshId : Nat) (now : Timestamp) (userId fcmToken : String)
    (platform : Option String) (l : List UserToken) (h : 0 < rowsFor userId fcmToken l) :
    (saveUserToken freshId now userId fcmToken platform l).1 =
      l.map (fun row =>
        if tokenKeyIs userId fcmToken row then
          { row with platform := platform.getD "ios", updated_at := now }
        else row) := by
  simp only [rowsFor] at h
  simp [saveUserToken, h]

theorem saveUserToken_preserves_unique (freshId : Nat) (now : Timestamp)
    (userId fcmToken : String) (platform : Option String) (l : List UserToken)
    (hu : PairUnique l) :
    PairUnique (saveUserToken freshId now userId fcmToken platform l).1 := by
  intro a b
  by_cases h : rowsFor userId fcmToken l = 0
  · rw [saveUserToken_of_absent _ _ _ _ _ _ h, rowsFor_append]
    by_cases hk : a = userId ∧ b = fcmToken
    · obtain ⟨rfl, rfl⟩ := hk
      rw [h]
      simp [rowsFor, List.filter_cons]
      split <;> simp
    · have hnew : rowsFor a b
          [{ id := freshId, user_id := userId, fcm_token := fcmToken,
             platform := platform.getD "ios", created_at := now, updated_at := now }] = 0 := by
        simp only [rowsFor, List.filter_cons, tokenKeyIs]
        have : (userId == a && fcmToken == b) = false := by
          rw [Bool.eq_false_iff]
          intro hc
          simp at hc
          exact hk ⟨hc.1.symm, hc.2.symm⟩
        simp [this]
      rw [hnew]
      exact hu a b
  · rw [saveUserToken_of_present _ _ _ _ _ _ (Nat.pos_of_ne_zero h)]
    rw [rowsFor_map_of_key_preserved a b _ _ l]
    · exact hu a b
    · intro row
      split <;> simp

theorem saveUserToken_other_pairs (freshId : Nat) (now : Timestamp)
    (userId fcmToken : String) (platform : Option String) (l : List UserToken) :
    rowsOfOtherPairs userId fcmToken
        (saveUserToken freshId now userId fcmToken platform l).1 =
      rowsOfOtherPairs userId fcmToken l := by
  by_cases h : rowsFor userId fcmToken l = 0
  · rw [saveUserToken_of_absent _ _ _ _ _ _ h]
    simp [rowsOfOtherPairs, List.filter_append, List.filter_cons, tokenKeyIs]
  · rw [saveUserToken_of_present _ _ _ _ _ _ (Nat.pos_of_ne_zero h)]
    exact rowsOfOtherPairs_map_update userId fcmToken
      (fun row => { row with platform := platform.getD "ios", updated_at := now })
      (fun _ => ⟨rfl, rfl⟩) l

theorem saveUserToken_success (freshId : Nat) (now : Timestamp) (userId fcmToken : String)
    (platform : Option String) (l : List UserToken) :
    (saveUserToken freshId now userId fcmToken platform l).2.success = true := by
  by_cases h : 0 < (l.filter (tokenKeyIs userId fcmToken)).length
  · simp [saveUserToken, h]
  · simp [saveUserToken, h]

theorem sampleTokens_pairUnique : PairUnique sampleTokens := by
  intro a b
  unfold rowsFor sampleTokens
  simp only [List.filter_cons, List.filter_nil, tokenKeyIs]
  by_cases h1 : a = "alice"
  · subst h1
    simp
    split <;> simp
  · have h2 : ("alice" == a) = false := by simpa using Ne.symm h1
    simp [h2]
    split <;> simp

/-- C5: on a table with no row for (u, t), `saveUserToken(u, t, p1)` followed by
`saveUserToken(u, t, p2)` leaves the old rows followed by one row for (u, t)
whose platform is p2 (`ios` when p2 is omitted), so exactly one row for the
pair; and a call on any table succeeds, keeps "at most one row per
(user_id, fcm_token) pair" and leaves the rows of all other pairs unchanged. -/
theorem saveUserToken_upsert (id1 id2 : Nat) (now1 now2 : Timestamp) (u t : String)
    (p1 p2 : Option String) (user_tokens : List UserToken) :
    (rowsFor u t user_tokens = 0 →
      (saveUserToken id2 now2 u t p2 (saveUserToken id1 now1 u t p1 user_tokens).1).1 =
          user_tokens ++ [{ id := id1, user_id := u, fcm_token := t,
                            platform := p2.getD "ios", created_at := now1,
                            updated_at := now2 }] ∧
        rowsFor u t
          (saveUserToken id2 now2 u t p2
            (saveUserToken id1 now1 u t p1 user_tokens).1).1 = 1 ∧
        (∀ row ∈ (saveUserToken id2 now2 u t p2
              (saveUserToken id1 now1 u t p1 user_tokens).1).1,
          row.user_id = u → row.fcm_token = t → row.platform = p2.getD "ios")) ∧
      (PairUnique user_tokens →
        PairUnique (saveUserToken id1 now1 u t p1 user_tokens).1) ∧
      rowsOfOtherPairs u t (saveUserToken id1 now1 u t p1 user_tokens).1 =
        rowsOfOtherPairs u t user_tokens ∧
      (saveUserToken id1 now1 u t p1 user_tokens).2.success = true := by
  refine ⟨?_, saveUserToken_preserves_unique id1 now1 u t p1 user_tokens,
    saveUserToken_other_pairs id1 now1 u t p1 user_tokens,
    saveUserToken_success id1 now1 u t p1 user_tokens⟩
  intro habsent
  have hkey : tokenKeyIs u t
      { id := id1, user_id := u, fcm_token := t, platform := p1.getD "ios",
        created_at := now1, updated_at := now1 } = true := by
    simp [tokenKeyIs]
  have h1 := saveUserToken_of_absent id1 now1 u t p1 user_tokens habsent
  have hpos : 0 < rowsFor u t (saveUserToken id1 now1 u t p1 user_tokens).1 := by
    rw [h1, rowsFor_append, habsent]
    simp [rowsFor, List.filter_cons, hkey]
  have h2 := saveUserToken_of_present id2 now2 u t p2 _ hpos
  have hfinal : (saveUserToken id2 now2 u t p2
      (saveUserToken id1 now1 u t p1 user_tokens).1).1 =
      user_tokens ++ [{ id := id1, user_id := u, fcm_token := t,
                        platform := p2.getD "ios", created_at := now1,
                        updated_at := now2 }] := by
    rw [h2, h1, List.map_append,
      map_update_eq_self_of_no_match u t
        (fun row => { row with platform := p2.getD "ios", updated_at := now2 })
        user_tokens habsent]
    simp [hkey]
  have hzero : ∀ row ∈ user_tokens, tokenKeyIs u t row = false := by
    intro row hrow
    have := habsent
    simp only [rowsFor, List.length_eq_zero, List.filter_eq_nil_iff] at this
    simpa using this row hrow
  refine ⟨hfinal, ?_, ?_⟩
  · rw [hfinal, rowsFor_append, habsent]
    simp [rowsFor, List.filter_cons, tokenKeyIs]
  · intro row hrow hu ht
    rw [hfinal, List.mem_append] at hrow
    rcases hrow with hold | hnew
    · have := hzero row hold
      rw [Bool.eq_false_iff] at this
      exact absurd ((tokenKeyIs_iff u t row).mpr ⟨hu, ht⟩) this
    · simp at hnew
      rw [hnew]

/-- C5, instantiated: alice registers `tok-new` as ios and again as android
next to two stored tokens; one row for the pair remains, with platform
android, and the table still has at most one row per pair after a call. -/
theorem saveUserToken_upsert_witness :
    rowsFor "alice" "tok-new" sampleTokens = 0 ∧
      (saveUserToken 4 20 "alice" "tok-new" (some "android")
          (saveUserToken 3 10 "alice" "tok-new" (some "ios") sampleTokens).1).1 =
        sampleTokens ++ [{ id := 3, user_id := "alice", fcm_token := "tok-new",
                           platform := "android", created_at := 10, updated_at := 20 }] ∧
      PairUnique (saveUserToken 3 10 "alice" "tok-new" (some "ios") sampleTokens).1 :=
  have h := saveUserToken_upsert 3 4 10 20 "alice" "tok-new" (some "ios") (some "android")
    sampleTokens
  ⟨by decide, (h.1 (by decide)).1, h.2.1 sampleTokens_pairUnique⟩

/-! ## markNotificationAsRead -/

theorem notificationKeyIs_update (now : Timestamp) (notificationId : Int) (userId : String)
    (row : NotificationRecord) :
    notificationKeyIs notificationId userId
        { row with is_read := true, read_at := some now } =
      notificationKeyIs notificationId userId row := rfl

theorem notificationKeyIs_iff (notificationId : Int) (userId : String)
    (row : NotificationRecord) :
    notificationKeyIs notificationId userId row = true ↔
      row.id = notificationId ∧ row.user_id = userId := by
  simp [notificationKeyIs]

theorem markNotificationAsRead_of_inRange (now : Timestamp) (notificationId : Int)
    (userId : String) (l : List NotificationRecord)
    (hlo : sqlIntMin ≤ notificationId) (hhi : notificationId ≤ sqlIntMax) :
    markNotificationAsRead now notificationId userId l =
      (l.map (fun row =>
          if notificationKeyIs notificationId userId row then
            { row with is_read := true, read_at := some now }
          else row),
        .ok { success := true }) := by
  have hr : ¬ (notificationId < sqlIntMin ∨ sqlIntMax < notificationId) := by omega
  simp only [markNotificationAsRead, if_neg hr]

theorem markNotificationAsRead_of_outOfRange (now : Timestamp) (notificationId : Int)
    (userId : String) (l : List NotificationRecord)
    (hr : notificationId < sqlIntMin ∨ sqlIntMax < notificationId) :
    (markNotificationAsRead now notificationId userId l).1 = l ∧
      ∃ message, (markNotificationAsRead now notificationId userId l).2 = .error message := by
  unfold markNotificationAsRead
  rw [if_pos hr]
  exact ⟨rfl, _, rfl⟩

theorem markNotificationAsRead_first_pointwise (now : Timestamp) (notificationId : Int)
    (userId : String) (l : List NotificationRecord) :
    List.Forall₂
      (fun before after =>
        (before.id = notificationId ∧ before.user_id = userId →
          after = { before with is_read := true, read_at := some now }) ∧
        (¬ (before.id = notificationId ∧ before.user_id = userId) → after = before))
      l
      (l.map (fun row =>
        if notificationKeyIs notificationId userId row then
          { row with is_read := true, read_at := some now }
        else row)) := by
  induction l with
  | nil => exact List.Forall₂.nil
  | cons row rest ih =>
    simp only [List.map_cons]
    refine List.Forall₂.cons ?_ ih
    by_cases hk : notificationKeyIs notificationId userId row = true
    · rw [if_pos hk]
      exact ⟨fun _ => rfl,
        fun hne => absurd ((notificationKeyIs_iff notificationId userId row).mp hk) hne⟩
    · rw [if_neg hk]
      exact ⟨fun hkey => absurd ((notificationKeyIs_iff notificationId userId row).mpr hkey) hk,
        fun _ => rfl⟩

theorem markNotificationAsRead_second_pointwise (now1 now2 : Timestamp)
    (notificationId : Int) (userId : String) (l : List NotificationRecord) :
    List.Forall₂
      (fun before after =>
        (before.id = notificationId ∧ before.user_id = userId →
          before.is_read = true ∧ after = { before with read_at := some now2 }) ∧
        (¬ (before.id = notificationId ∧ before.user_id = userId) → after = before))
      (l.map (fun row =>
        if notificationKeyIs notificationId userId row then
          { row with is_read := true, read_at := some now1 }
        else row))
      ((l.map (fun row =>
        if notificationKeyIs notificationId userId row then
          { row with is_read := true, read_at := some now1 }
        else row)).map (fun row =>
        if notificationKeyIs notificationId userId row then
          { row with is_read := true, read_at := some now2 }
        else row)) := by
  induction l with
  | nil => exact List.Forall₂.nil
  | cons row rest ih =>
    simp only [List.map_cons]
    refine List.Forall₂.cons ?_ ih
    by_cases hk : notificationKeyIs notificationId userId row = true
    · have hk1 : notificationKeyIs notificationId userId
          { row with is_read := true, read_at := some now1 } = true := hk
      rw [if_pos hk, if_pos hk1]
      exact ⟨fun _ => ⟨rfl, rfl⟩,
        fun hne => absurd ((notificationKeyIs_iff notificationId userId row).mp hk) hne⟩
    · rw [if_neg hk, if_neg hk]
      exact ⟨fun hkey => absurd ((notificationKeyIs_iff notificationId userId row).mpr hkey) hk,
        fun _ => rfl⟩

theorem markNotificationAsRead_twice_eq (now1 now2 : Timestamp) (notificationId : Int)
    (userId : String) (l : List NotificationRecord) :
    (markNotificationAsRead now2 notificationId userId
        (markNotificationAsRead now1 notificationId userId l).1).1 =
      (markNotificationAsRead now2 notificationId userId l).1 := by
  by_cases hr : notificationId < sqlIntMin ∨ sqlIntMax < notificationId
  · simp only [markNotificationAsRead, if_pos hr]
  · simp only [markNotificationAsRead, if_neg hr, List.map_map]
    apply List.map_congr_left
    intro row _
    by_cases h : notificationKeyIs notificationId userId row = true
    · simp [Function.comp, h, notificationKeyIs_update]
    · simp [Function.comp, h]

theorem markNotificationAsRead_withoutReadAt (now1 now2 : Timestamp) (notificationId : Int)
    (userId : String) (l : List NotificationRecord) :
    (markNotificationAsRead now2 notificationId userId l).1.map withoutReadAt =
      (markNotificationAsRead now1 notificationId userId l).1.map withoutReadAt := by
  by_cases hr : notificationId < sqlIntMin ∨ sqlIntMax < notificationId
  · simp only [markNotificationAsRead, if_pos hr]
  · simp only [markNotificationAsRead, if_neg hr, List.map_map]
    apply List.map_congr_left
    intro row _
    by_cases h : notificationKeyIs notificationId userId row = true
    · simp [Function.comp, h, withoutReadAt]
    · simp [Function.comp, h]

/-- C6, as stated, fails: marking notification 7 of alice read at time 1000 and
again at time 2000 leaves `read_at` at 2000, not at the 1000 the first call
stored, so the table differs from the state after the first call. -/
theorem markNotificationAsRead_restamps_read_at :
    (markNotificationAsRead 1000 7 "alice" sampleHistory).1.map (fun row => row.read_at) =
        [some 1000, none] ∧
      (markNotificationAsRead 2000 7 "alice"
          (markNotificationAsRead 1000 7 "alice" sampleHistory).1).1.map
        (fun row => row.read_at) = [some 2000, none] ∧
      (markNotificationAsRead 2000 7 "alice"
          (markNotificationAsRead 1000 7 "alice" sampleHistory).1).1 ≠
        (markNotificationAsRead 1000 7 "alice" sampleHistory).1 := by
  decide

/-- C6, amended: for an id in the range of `sql.Int`,
`markNotificationAsRead(id, user)` resolves to success and changes the table in
one way only: every row with that id and user_id gets `is_read` true and
`read_at` set to the time of the call, and every other row stays as it is.  A
second call resolves to success too; it leaves every row with another id or
another user_id exactly as the first call left it, `read_at` included, and
changes a row with that id and user_id in its `read_at` alone, which takes the
time of the second call while `is_read` stays true.  The table after the second
call is the one a single call at the second time gives, and it equals the table
after the first call when both calls read the same time. -/
theorem markNotificationAsRead_again (now1 now2 : Timestamp) (notificationId : Int)
    (userId : String) (notification_history : List NotificationRecord)
    (hlo : sqlIntMin ≤ notificationId) (hhi : notificationId ≤ sqlIntMax) :
    (markNotificationAsRead now1 notificationId userId notification_history).2 =
        .ok { success := true } ∧
      List.Forall₂
        (fun before after =>
          (before.id = notificationId ∧ before.user_id = userId →
            after = { before with is_read := true, read_at := some now1 }) ∧
          (¬ (before.id = notificationId ∧ before.user_id = userId) → after = before))
        notification_history
        (markNotificationAsRead now1 notificationId userId notification_history).1 ∧
      (markNotificationAsRead now1 notificationId userId notification_history).1.length =
        notification_history.length ∧
      (∀ row ∈ notification_history,
        row.id = notificationId → row.user_id = userId →
        { row with is_read := true, read_at := some now1 } ∈
          (markNotificationAsRead now1 notificationId userId notification_history).1) ∧
      (∀ row ∈ (markNotificationAsRead now1 notificationId userId notification_history).1,
        row.id = notificationId → row.user_id = userId →
        row.is_read = true ∧ row.read_at = some now1) ∧
      (markNotificationAsRead now2 notificationId userId
        (markNotificationAsRead now1 notificationId userId notification_history).1).2 =
        .ok { success := true } ∧
      List.Forall₂
        (fun before after =>
          (before.id = notificationId ∧ before.user_id = userId →
            before.is_read = true ∧ after = { before with read_at := some now2 }) ∧
          (¬ (before.id = notificationId ∧ before.user_id = userId) → after = before))
        (markNotificationAsRead now1 notificationId userId notification_history).1
        (markNotificationAsRead now2 notificationId userId
          (markNotificationAsRead now1 notificationId userId notification_history).1).1 ∧
      (markNotificationAsRead now2 notificationId userId
          (markNotificationAsRead now1 notificationId userId notification_history).1).1 =
        (markNotificationAsRead now2 notificationId userId notification_history).1 ∧
      (markNotificationAsRead now2 notificationId userId
          (markNotificationAsRead now1 notificationId userId notification_history).1).1.map
          withoutReadAt =
        (markNotificationAsRead now1 notificationId userId notification_history).1.map
          withoutReadAt ∧
      (∀ row ∈ (markNotificationAsRead now2 notificationId userId
            (markNotificationAsRead now1 notificationId userId notification_history).1).1,
        row.id = notificationId → row.user_id = userId →
        row.is_read = true ∧ row.read_at = some now2) ∧
      (now2 = now1 →
        (markNotificationAsRead now2 notificationId userId
          (markNotificationAsRead now1 notificationId userId notification_history).1).1 =
        (markNotificationAsRead now1 notificationId userId notification_history).1) := by
  have hset : ∀ (now : Timestamp),
      ∀ row ∈ (markNotificationAsRead now notificationId userId notification_history).1,
        row.id = notificationId → row.user_id = userId →
        row.is_read = true ∧ row.read_at = some now := by
    intro now row hrow hid huser
    rw [markNotificationAsRead_of_inRange now notificationId userId _ hlo hhi] at hrow
    simp only [List.mem_map] at hrow
    obtain ⟨old, _, hold⟩ := hrow
    by_cases hk : notificationKeyIs notificationId userId old = true
    · rw [if_pos hk] at hold
      subst hold
      exact ⟨rfl, rfl⟩
    · rw [if_neg hk] at hold
      subst hold
      exact absurd (by simp [notificationKeyIs, hid, huser]) hk
  have htwice := markNotificationAsRead_twice_eq now1 now2 notificationId userId
    notification_history
  have hfirst := markNotificationAsRead_of_inRange now1 notificationId userId
    notification_history hlo hhi
  have hsecond := markNotificationAsRead_of_inRange now2 notificationId userId
    (markNotificationAsRead now1 notificationId userId notification_history).1 hlo hhi
  refine ⟨by rw [hfirst], ?_, by rw [hfirst]; simp, ?_, hset now1, by rw [hsecond], ?_,
    htwice, ?_, ?_, ?_⟩
  · rw [hfirst]
    exact markNotificationAsRead_first_pointwise now1 notificationId userId
      notification_history
  · intro row hrow hid huser
    rw [hfirst]
    simp only [List.mem_map]
    refine ⟨row, hrow, ?_⟩
    simp [notificationKeyIs, hid, huser]
  · rw [hsecond, hfirst]
    exact markNotificationAsRead_second_pointwise now1 now2 notificationId userId
      notification_history
  · rw [htwice]
    exact markNotificationAsRead_withoutReadAt now1 now2 notificationId userId
      notification_history
  · rw [htwice]
    exact hset now2
  · intro h
    rw [htwice, h]

/-- C6 amended, instantiated: after alice marks notification 7 at time 1000 and
again at time 2000 it is read with `read_at` 2000, while bob's notification 8
keeps its `read_at` 300 and alice's notification 9 stays unread; and bob passing
the id 7 twice leaves the table as it was. -/
theorem markNotificationAsRead_again_witness :
    (markNotificationAsRead 2000 7 "alice"
        (markNotificationAsRead 1000 7 "alice" sampleInbox).1).1 =
      [{ id := 7, user_id := "alice", title := "New feedback", body := "Late delivery",
         data := "", feedback_id := some "fb-1", created_at := 100, is_read := true,
         read_at := some 2000 },
       { id := 8, user_id := "bob", title := "New feedback", body := "Late delivery",
         data := "", feedback_id := some "fb-1", created_at := 100, is_read := true,
         read_at := some 300 },
       { id := 9, user_id := "alice", title := "New feedback", body := "Refund",
         data := "", feedback_id := some "fb-3", created_at := 200, is_read := false,
         read_at := none }] ∧
      (markNotificationAsRead 2000 7 "alice"
        (markNotificationAsRead 1000 7 "alice" sampleInbox).1).2 = .ok { success := true } ∧
      (markNotificationAsRead 2000 7 "bob"
        (markNotificationAsRead 1000 7 "bob" sampleInbox).1).1 = sampleInbox :=
  have h := markNotificationAsRead_again 1000 2000 7 "alice" sampleInbox
    (by decide) (by decide)
  have hbob := markNotificationAsRead_again 1000 2000 7 "bob" sampleInbox
    (by decide) (by decide)
  ⟨h.2.2.2.2.2.2.2.1.trans (by decide), h.2.2.2.2.2.1,
    hbob.2.2.2.2.2.2.2.1.trans (by decide)⟩

/-! ## cleanupOldTokens -/

theorem dateAddDay_minus_thirty (now : Timestamp) :
    dateAddDay (-30) now = now - 30 * msPerDay := by
  show (now : Int) + -30 * msPerDay = now - 30 * msPerDay
  ring

theorem filter_length_add_filter_not {α : Type} (p : α → Bool) (l : List α) :
    (l.filter p).length + (l.filter (fun x => !p x)).length = l.length := by
  induction l with
  | nil => rfl
  | cons a l ih =>
    by_cases h : p a = true
    · simp [List.filter_cons, h]; omega
    · simp [List.filter_cons, h]; omega

/-- C7: `cleanupOldTokens`, run at time `now`, keeps exactly the rows whose
`created_at` is not more than 30 days before `now`, unchanged and in table
order, deletes every other row, and returns as `deletedCount` the number of rows
deleted; a token created 31 days ago is removed and one created 29 days ago is
kept. -/
theorem cleanupOldTokens_deletes_old (now : Timestamp) (user_tokens : List UserToken) :
    (∀ row, row ∈ (cleanupOldTokens now user_tokens).1 ↔
        row ∈ user_tokens ∧ ¬ row.created_at < now - 30 * msPerDay) ∧
      (cleanupOldTokens now user_tokens).1.Sublist user_tokens ∧
      (∀ row, ¬ row.created_at < now - 30 * msPerDay →
        (cleanupOldTokens now user_tokens).1.count row = user_tokens.count row) ∧
      (cleanupOldTokens now user_tokens).2.success = true ∧
      (cleanupOldTokens now user_tokens).2.deletedCount =
        user_tokens.countP (fun row => decide (row.created_at < now - 30 * msPerDay)) ∧
      (cleanupOldTokens now user_tokens).2.deletedCount +
        (cleanupOldTokens now user_tokens).1.length = user_tokens.length ∧
      (∀ row ∈ user_tokens, row.created_at = now - 31 * msPerDay →
        row ∉ (cleanupOldTokens now user_tokens).1) ∧
      (∀ row ∈ user_tokens, row.created_at = now - 29 * msPerDay →
        row ∈ (cleanupOldTokens now user_tokens).1) := by
  have hold : ∀ row : UserToken,
      isOldToken now row = decide (row.created_at < now - 30 * msPerDay) := by
    intro row
    rw [isOldToken, dateAddDay_minus_thirty]
  have hfun : isOldToken now = fun row => decide (row.created_at < now - 30 * msPerDay) :=
    funext hold
  have hmem : ∀ row, row ∈ (cleanupOldTokens now user_tokens).1 ↔
      row ∈ user_tokens ∧ ¬ row.created_at < now - 30 * msPerDay := by
    intro row
    simp [cleanupOldTokens, List.mem_filter, hold]
  refine ⟨hmem, ?_, ?_, rfl, ?_, ?_, ?_, ?_⟩
  · exact List.filter_sublist _
  · intro row hrow
    simp only [cleanupOldTokens]
    rw [List.count_filter]
    simp [hold, hrow]
  · simp only [cleanupOldTokens, hfun, List.countP_eq_length_filter]
  · simp only [cleanupOldTokens, hfun]
    exact filter_length_add_filter_not _ user_tokens
  · intro row _ hrow
    rw [hmem]
    intro h
    apply h.2
    rw [hrow]
    simp [msPerDay]
  · intro row hmemrow hrow
    rw [hmem]
    refine ⟨hmemrow, ?_⟩
    rw [hrow]
    simp [msPerDay]

/-- C7, instantiated: of a token aged 31 days and one aged 29 days only the
second survives, and `deletedCount` is 1. -/
theorem cleanupOldTokens_deletes_old_witness :
    cleanupOldTokens 5000000000 [tokenAged 1 31 5000000000, tokenAged 2 29 5000000000] =
      ([tokenAged 2 29 5000000000], { success := true, deletedCount := 1 }) ∧
      tokenAged 1 31 5000000000 ∉
        (cleanupOldTokens 5000000000
          [tokenAged 1 31 5000000000, tokenAged 2 29 5000000000]).1 :=
  ⟨by decide,
    (cleanupOldTokens_deletes_old 5000000000
      [tokenAged 1 31 5000000000, tokenAged 2 29 5000000000]).2.2.2.2.2.2.1
      (tokenAged 1 31 5000000000) (by decide) (by decide)⟩

/-! ## POST /fcm-token -/

/-- C8, as stated, fails: a request with non-empty `fcm_token` and `user_id`
and platform `ios`, sent while the store cannot fail, is answered 400 "Invalid
FCM token" without any call to `saveUserToken`, because `validateToken` reports
the token as not valid. -/
theorem postFcmToken_rejects_invalid_token :
    (registration "tok-bad" "ios" "alice").fcm_token.truthy = true ∧
      (registration "tok-bad" "ios" "alice").user_id.truthy = true ∧
      (registration "tok-bad" "ios" "alice").platform.isString "ios" = true ∧
      (∀ userId fcmToken platform w, ∃ r w1,
        sampleUserCollaborators.saveUserToken userId fcmToken platform w = (.ok r, w1)) ∧
      (postFcmToken sampleUserCollaborators (registration "tok-bad" "ios" "alice") []).response =
        ⟨400, .failure "Invalid FCM token" "The provided FCM token is not valid"⟩ ∧
      ((postFcmToken sampleUserCollaborators
        (registration "tok-bad" "ios" "alice") []).calls.filter UserCall.isSave).length = 0 ∧
      (postFcmToken sampleUserCollaborators (registration "tok-bad" "ios" "alice") []).world =
        [] := by
  refine ⟨by decide, by decide, by decide, ?_, by rfl, by rfl, by rfl⟩
  intro userId fcmToken platform w
  exact ⟨_, _, rfl⟩

theorem isString_truthy (v : JsValue) (s : String) (hs : s ≠ "")
    (h : v.isString s = true) : v.truthy = true := by
  cases v <;> simp [JsValue.isString] at h
  subst h
  simp [JsValue.truthy, hs]

/-- C8, amended: `POST /fcm-token` answers 400 and calls no collaborator when
`fcm_token` or `user_id` is missing or empty or `platform` is not `ios` or
`android`.  Otherwise it first calls `validateToken(fcm_token)`: when that
throws the answer is 500 and when it reports the token not valid the answer is
400, in both cases without a call to `saveUserToken`; when it reports the token
valid the handler calls `saveUserToken(user_id, fcm_token, platform)` once and
answers 200 with success true if the store call resolves, 500 if it throws. -/
theorem postFcmToken_validates_then_saves {W : Type} (c : UserCollaborators W)
    (body : FcmTokenBody) (w : W) :
    ((body.fcm_token.truthy = false ∨ body.user_id.truthy = false ∨
        (body.platform.isString "ios" = false ∧ body.platform.isString "android" = false)) →
      (postFcmToken c body w).response.status = 400 ∧
        (postFcmToken c body w).calls = [] ∧
        (postFcmToken c body w).world = w) ∧
    (body.fcm_token.truthy = true → body.user_id.truthy = true →
      (body.platform.isString "ios" = true ∨ body.platform.isString "android" = true) →
      (∀ message w1, c.validateToken body.fcm_token w = (.error message, w1) →
        (postFcmToken c body w).response.status = 500 ∧
          (postFcmToken c body w).calls = [.validateToken body.fcm_token] ∧
          (postFcmToken c body w).world = w1) ∧
      (∀ w1, c.validateToken body.fcm_token w = (.ok { valid := false }, w1) →
        (postFcmToken c body w).response =
            ⟨400, .failure "Invalid FCM token" "The provided FCM token is not valid"⟩ ∧
          (postFcmToken c body w).calls = [.validateToken body.fcm_token] ∧
          (postFcmToken c body w).world = w1) ∧
      (∀ w1, c.validateToken body.fcm_token w = (.ok { valid := true }, w1) →
        (postFcmToken c body w).calls =
            [.validateToken body.fcm_token,
             .saveUserToken body.user_id body.fcm_token body.platform] ∧
          (∀ r w2, c.saveUserToken body.user_id body.fcm_token body.platform w1 = (.ok r, w2) →
            (postFcmToken c body w).response =
                ⟨200, .plain true "FCM token saved successfully"⟩ ∧
              (postFcmToken c body w).world = w2) ∧
          (∀ message w2,
            c.saveUserToken body.user_id body.fcm_token body.platform w1 =
              (.error message, w2) →
            (postFcmToken c body w).response =
                ⟨500, .failure "Internal server error" "Failed to save FCM token"⟩ ∧
              (postFcmToken c body w).world = w2))) := by
  constructor
  · rintro (h | h | ⟨h1, h2⟩)
    · simp [postFcmToken, h]
    · simp [postFcmToken, h]
    · by_cases hf : body.fcm_token.truthy = true ∧ body.user_id.truthy = true
      · simp [postFcmToken, hf.1, hf.2, h1, h2]
      · have hf2 : body.fcm_token.truthy = false ∨ body.user_id.truthy = false := by
          by_cases ha : body.fcm_token.truthy = true
          · right
            simpa [ha] using hf
          · left
            simpa using ha
        rcases hf2 with h | h <;> simp [postFcmToken, h]
  · intro hf hu hp
    have hpt : body.platform.truthy = true := by
      rcases hp with h | h
      · exact isString_truthy _ _ (by decide) h
      · exact isString_truthy _ _ (by decide) h
    have hpp : (body.platform.isString "ios" || body.platform.isString "android") = true := by
      rcases hp with h | h <;> simp [h]
    refine ⟨?_, ?_, ?_⟩
    · intro message w1 hv
      simp [postFcmToken, hf, hu, hpt, hpp, hv]
    · intro w1 hv
      simp [postFcmToken, hf, hu, hpt, hpp, hv]
    · intro w1 hv
      refine ⟨?_, ?_, ?_⟩
      · rcases hs : c.saveUserToken body.user_id body.fcm_token body.platform w1 with ⟨r, w2⟩
        cases r <;> simp [postFcmToken, hf, hu, hpt, hpp, hv, hs]
      · intro r w2 hs
        simp [postFcmToken, hf, hu, hpt, hpp, hv, hs]
      · intro message w2 hs
        simp [postFcmToken, hf, hu, hpt, hpp, hv, hs]

/-- C8 amended, instantiated: a valid android registration of alice is checked,
saved once with its three fields, and answered 200. -/
theorem postFcmToken_validates_then_saves_witness :
    (postFcmToken sampleUserCollaborators (registration "tok-1" "android" "alice") []).response =
        ⟨200, .plain true "FCM token saved successfully"⟩ ∧
      (postFcmToken sampleUserCollaborators (registration "tok-1" "android" "alice") []).world =
        [(.string "alice", .string "tok-1", .string "android")] :=
  ((postFcmToken_validates_then_saves sampleUserCollaborators
      (registration "tok-1" "android" "alice") []).2 (by decide) (by decide)
      (Or.inr (by decide))).2.2 [] (by rfl) |>.2.1 { success := true }
      [(.string "alice", .string "tok-1", .string "android")] (by rfl)

/-! ## getUserTokens -/

theorem isActiveTokenOf_iff (now : Timestamp) (userId : String) (row : UserToken) :
    isActiveTokenOf now userId row = true ↔
      row.user_id = userId ∧ now - 30 * msPerDay < row.created_at := by
  simp [isActiveTokenOf, dateAddDay_minus_thirty]

/-- C9: `getUserTokens(u)`, run at time `now`, returns the `fcm_token` values of
a rearrangement of exactly the rows with `user_id` u and `created_at` later than
`now` minus 30 days, each row once, arranged so that `updated_at` never
increases along the list; every returned token therefore belongs to such a row,
and every such row contributes its token. -/
theorem getUserTokens_active_by_update (now : Timestamp) (userId : String)
    (user_tokens : List UserToken) :
    (∃ rows : List UserToken,
        getUserTokens now userId user_tokens = rows.map (fun row => row.fcm_token) ∧
        rows.Perm (user_tokens.filter (fun row =>
          decide (row.user_id = userId ∧ now - 30 * msPerDay < row.created_at))) ∧
        rows.Pairwise (fun a b => b.updated_at ≤ a.updated_at)) ∧
      (getUserTokens now userId user_tokens).length =
        user_tokens.countP (fun row =>
          decide (row.user_id = userId ∧ now - 30 * msPerDay < row.created_at)) ∧
      (∀ token ∈ getUserTokens now userId user_tokens,
        ∃ row ∈ user_tokens, row.fcm_token = token ∧ row.user_id = userId ∧
          now - 30 * msPerDay < row.created_at) ∧
      (∀ row ∈ user_tokens, row.user_id = userId → now - 30 * msPerDay < row.created_at →
        row.fcm_token ∈ getUserTokens now userId user_tokens) := by
  have hfun : isActiveTokenOf now userId = fun row =>
      decide (row.user_id = userId ∧ now - 30 * msPerDay < row.created_at) := by
    funext row
    rw [Bool.eq_iff_iff, isActiveTokenOf_iff]
    simp
  have hperm := List.perm_insertionSort updatedNotBefore
    (user_tokens.filter (isActiveTokenOf now userId))
  have hsorted := List.sorted_insertionSort updatedNotBefore
    (user_tokens.filter (isActiveTokenOf now userId))
  refine ⟨⟨_, rfl, ?_, hsorted⟩, ?_, ?_, ?_⟩
  · rw [← hfun]
    exact hperm
  · rw [← hfun, List.countP_eq_length_filter]
    simp only [getUserTokens, List.length_map]
    exact hperm.length_eq
  · intro token htoken
    simp only [getUserTokens, List.mem_map] at htoken
    obtain ⟨row, hrow, rfl⟩ := htoken
    have hmem := (hperm.mem_iff).mp hrow
    rw [List.mem_filter, isActiveTokenOf_iff] at hmem
    exact ⟨row, hmem.1, rfl, hmem.2.1, hmem.2.2⟩
  · intro row hrow huser hfresh
    simp only [getUserTokens, List.mem_map]
    refine ⟨row, (hperm.mem_iff).mpr ?_, rfl⟩
    rw [List.mem_filter, isActiveTokenOf_iff]
    exact ⟨hrow, huser, hfresh⟩

/-- C9, instantiated: on day 40 alice's token of day 1 is left out although it
was updated last, bob's token is left out, and her two fresh tokens come with
the more recently updated one first. -/
theorem getUserTokens_active_by_update_witness :
    getUserTokens (40 * msPerDay) "alice" sampleRegistry = ["tok-new", "tok-mid"] ∧
      (getUserTokens (40 * msPerDay) "alice" sampleRegistry).length =
        sampleRegistry.countP (fun row =>
          decide (row.user_id = "alice" ∧ 40 * msPerDay - 30 * msPerDay < row.created_at)) :=
  ⟨by decide, (getUserTokens_active_by_update (40 * msPerDay) "alice" sampleRegistry).2.1⟩

/-! ## removeUserToken -/

/-- C10: `removeUserToken(u, t)` returns success on every table, with or
without a row for (u, t); afterwards no row for (u, t) remains, the rows of all
other pairs are the same rows in the same order, and a second application
returns the same table and result as the first. -/
theorem removeUserToken_idempotent (userId fcmToken : String)
    (user_tokens : List UserToken) :
    (removeUserToken userId fcmToken user_tokens).2.success = true ∧
      rowsFor userId fcmToken (removeUserToken userId fcmToken user_tokens).1 = 0 ∧
      (∀ row ∈ (removeUserToken userId fcmToken user_tokens).1,
        ¬ (row.user_id = userId ∧ row.fcm_token = fcmToken)) ∧
      (∀ row ∈ user_tokens, ¬ (row.user_id = userId ∧ row.fcm_token = fcmToken) →
        row ∈ (removeUserToken userId fcmToken user_tokens).1) ∧
      (removeUserToken userId fcmToken user_tokens).1.Sublist user_tokens ∧
      (∀ row, ¬ (row.user_id = userId ∧ row.fcm_token = fcmToken) →
        (removeUserToken userId fcmToken user_tokens).1.count row = user_tokens.count row) ∧
      rowsOfOtherPairs userId fcmToken (removeUserToken userId fcmToken user_tokens).1 =
        rowsOfOtherPairs userId fcmToken user_tokens ∧
      (rowsFor userId fcmToken user_tokens = 0 →
        (removeUserToken userId fcmToken user_tokens).1 = user_tokens) ∧
      removeUserToken userId fcmToken (removeUserToken userId fcmToken user_tokens).1 =
        removeUserToken userId fcmToken user_tokens := by
  refine ⟨rfl, ?_, ?_, ?_, ?_, ?_, ?_, ?_, ?_⟩
  · simp only [rowsFor, removeUserToken, List.length_eq_zero, List.filter_eq_nil_iff]
    intro row hrow
    rw [List.mem_filter] at hrow
    simpa using hrow.2
  · intro row hrow
    simp only [removeUserToken, List.mem_filter] at hrow
    rw [← tokenKeyIs_iff]
    simpa using hrow.2
  · intro row hrow hkey
    simp only [removeUserToken, List.mem_filter]
    rw [← tokenKeyIs_iff] at hkey
    exact ⟨hrow, by simpa using hkey⟩
  · exact List.filter_sublist _
  · intro row hkey
    rw [← tokenKeyIs_iff] at hkey
    simp only [removeUserToken]
    rw [List.count_filter]
    simpa using hkey
  · simp [rowsOfOtherPairs, removeUserToken, List.filter_filter]
  · intro h
    simp only [rowsFor, List.length_eq_zero, List.filter_eq_nil_iff] at h
    simp only [removeUserToken]
    rw [List.filter_eq_self]
    intro row hrow
    simpa using h row hrow
  · simp [removeUserToken, List.filter_filter]

/-- C10, instantiated: removing alice's token from the sample table twice
leaves bob's row alone, and removing a pair that is not stored changes
nothing. -/
theorem removeUserToken_idempotent_witness :
    (removeUserToken "alice" "tok-a" (removeUserToken "alice" "tok-a" sampleTokens).1).1 =
        [{ id := 2, user_id := "bob", fcm_token := "tok-b", platform := "android",
           created_at := 0, updated_at := 0 }] ∧
      (removeUserToken "carol" "tok-c" sampleTokens).1 = sampleTokens :=
  ⟨(congrArg Prod.fst
      (removeUserToken_idempotent "alice" "tok-a" sampleTokens).2.2.2.2.2.2.2.2).trans
      (by decide),
    (removeUserToken_idempotent "carol" "tok-c" sampleTokens).2.2.2.2.2.2.2.1 (by decide)⟩

/-! ## getUsersForFeedbackNotification -/

theorem mem_getUsersForFeedbackNotification (feedbackId : String)
    (customerfeedback : List CustomerFeedback) (x : String) :
    x ∈ getUsersForFeedbackNotification feedbackId customerfeedback ↔
      x = "admin" ∨
        ∃ row ∈ customerfeedback, row.id = feedbackId ∧ row.assigned_user_id = some x := by
  simp only [getUsersForFeedbackNotification, List.mem_dedup, List.mem_append,
    List.mem_filterMap, List.mem_filter, List.mem_singleton]
  constructor
  · rintro (⟨row, ⟨hrow, hcond⟩, hx⟩ | h)
    · right
      simp only [Bool.and_eq_true, beq_iff_eq] at hcond
      exact ⟨row, hrow, hcond.1, hx⟩
    · left
      exact h
  · rintro (h | ⟨row, hrow, hid, hx⟩)
    · right
      exact h
    · left
      refine ⟨row, ⟨hrow, ?_⟩, hx⟩
      simp [hid, hx]

/-- C11: `getUsersForFeedbackNotification(f)` has no duplicates, always
contains `admin` (so it is never empty, and it is exactly `admin` alone when no
row has id f), contains a user id other than `admin` exactly when some
`customerfeedback` row with id f has that id as its non-null assignee, and
contains nothing but `admin` and such assignees. -/
theorem getUsersForFeedbackNotification_union (feedbackId : String)
    (customerfeedback : List CustomerFeedback) :
    (getUsersForFeedbackNotification feedbackId customerfeedback).Nodup ∧
      "admin" ∈ getUsersForFeedbackNotification feedbackId customerfeedback ∧
      getUsersForFeedbackNotification feedbackId customerfeedback ≠ [] ∧
      (∀ x, x ≠ "admin" →
        (x ∈ getUsersForFeedbackNotification feedbackId customerfeedback ↔
          ∃ row ∈ customerfeedback,
            row.id = feedbackId ∧ row.assigned_user_id = some x)) ∧
      (∀ x ∈ getUsersForFeedbackNotification feedbackId customerfeedback,
        x = "admin" ∨
          ∃ row ∈ customerfeedback,
            row.id = feedbackId ∧ row.assigned_user_id = some x) ∧
      ((∀ row ∈ customerfeedback, row.id ≠ feedbackId) →
        getUsersForFeedbackNotification feedbackId customerfeedback = ["admin"]) := by
  have hadmin : "admin" ∈ getUsersForFeedbackNotification feedbackId customerfeedback :=
    (mem_getUsersForFeedbackNotification feedbackId customerfeedback "admin").mpr
      (Or.inl rfl)
  refine ⟨List.nodup_dedup _, hadmin, List.ne_nil_of_mem hadmin, ?_, ?_, ?_⟩
  · intro x hx
    rw [mem_getUsersForFeedbackNotification]
    constructor
    · rintro (h | h)
      · exact absurd h hx
      · exact h
    · exact Or.inr
  · intro x hx
    exact (mem_getUsersForFeedbackNotification feedbackId customerfeedback x).mp hx
  · intro hnone
    have hfilter : customerfeedback.filter
        (fun cf => cf.id == feedbackId && cf.assigned_user_id.isSome) = [] := by
      rw [List.filter_eq_nil_iff]
      intro row hrow
      simp [hnone row hrow]
    simp [getUsersForFeedbackNotification, hfilter]

/-- C11, instantiated: the assignee alice comes with admin, an unassigned or
unknown feedback yields admin alone, and an assignee called admin is listed
once. -/
theorem getUsersForFeedbackNotification_union_witness :
    getUsersForFeedbackNotification "fb-1" sampleFeedback = ["alice", "admin"] ∧
      getUsersForFeedbackNotification "fb-2" sampleFeedback = ["admin"] ∧
      getUsersForFeedbackNotification "fb-3" sampleFeedback = ["admin"] ∧
      getUsersForFeedbackNotification "fb-9" sampleFeedback = ["admin"] :=
  ⟨by decide, by decide, by decide,
    (getUsersForFeedbackNotification_union "fb-9" sampleFeedback).2.2.2.2.2 (by decide)⟩

/-! ## The frame of markNotificationAsRead -/

theorem markNotificationAsRead_pointwise (now : Timestamp) (notificationId : Int)
    (userId : String) (l : List NotificationRecord) :
    List.Forall₂
      (fun before after =>
        sameContent before after ∧
          (sqlIntMin ≤ notificationId ∧ notificationId ≤ sqlIntMax →
            before.id = notificationId ∧ before.user_id = userId →
            after.is_read = true ∧ after.read_at = some now) ∧
          (¬ (before.id = notificationId ∧ before.user_id = userId) → after = before) ∧
          (after = before ∨ after = { before with is_read := true, read_at := some now }))
      l (markNotificationAsRead now notificationId userId l).1 := by
  by_cases hr : notificationId < sqlIntMin ∨ sqlIntMax < notificationId
  · rw [(markNotificationAsRead_of_outOfRange now notificationId userId l hr).1]
    rw [List.forall₂_same]
    intro row _
    refine ⟨⟨rfl, rfl, rfl, rfl, rfl, rfl, rfl⟩, fun hin => ?_, fun _ => rfl, Or.inl rfl⟩
    omega
  · have hlo : sqlIntMin ≤ notificationId := by omega
    have hhi : notificationId ≤ sqlIntMax := by omega
    rw [markNotificationAsRead_of_inRange now notificationId userId l hlo hhi]
    induction l with
    | nil => exact List.Forall₂.nil
    | cons row rest ih =>
      simp only [List.map_cons]
      refine List.Forall₂.cons ?_ ih
      by_cases hk : notificationKeyIs notificationId userId row = true
      · rw [if_pos hk]
        refine ⟨⟨rfl, rfl, rfl, rfl, rfl, rfl, rfl⟩, fun _ _ => ⟨rfl, rfl⟩, fun hne => ?_,
          Or.inr rfl⟩
        exact absurd ((notificationKeyIs_iff notificationId userId row).mp hk) hne
      · rw [if_neg hk]
        refine ⟨⟨rfl, rfl, rfl, rfl, rfl, rfl, rfl⟩, fun _ hkey => ?_, fun _ => rfl,
          Or.inl rfl⟩
        exact absurd ((notificationKeyIs_iff notificationId userId row).mpr hkey) hk

theorem markNotificationAsRead_others (now : Timestamp) (notificationId : Int)
    (userId : String) (l : List NotificationRecord) :
    (markNotificationAsRead now notificationId userId l).1.filter
        (fun row => !notificationKeyIs notificationId userId row) =
      l.filter (fun row => !notificationKeyIs notificationId userId row) := by
  by_cases hr : notificationId < sqlIntMin ∨ sqlIntMax < notificationId
  · rw [(markNotificationAsRead_of_outOfRange now notificationId userId l hr).1]
  · have hlo : sqlIntMin ≤ notificationId := by omega
    have hhi : notificationId ≤ sqlIntMax := by omega
    rw [markNotificationAsRead_of_inRange now notificationId userId l hlo hhi]
    induction l with
    | nil => rfl
    | cons row rest ih =>
      simp only [List.map_cons] at ih ⊢
      by_cases hk : notificationKeyIs notificationId userId row = true
      · rw [if_pos hk]
        simp [List.filter_cons, hk, notificationKeyIs_update, ih]
      · rw [if_neg hk]
        simp [List.filter_cons, hk, ih]

/-- C12: `markNotificationAsRead(id, user)` returns a table with the same rows
in the same positions (none inserted, none deleted); each row keeps its id,
user_id, title, body, data, feedback_id and created_at, and is either as before
or as before with `is_read` true and `read_at` stamped; every row with a
different id or a different user_id is unchanged, so a notification of another
user is not marked read by passing its id.  For an id in the range of `sql.Int`
a row whose id is `id` and whose user_id is `user` gets `is_read` true and
`read_at` stamped; for an id outside it the call throws and the table is
unchanged.  The route calls the function with the id of the path and the
`user_id` of the body, once, and not at all when `user_id` is missing. -/
theorem markNotificationAsRead_frame {W : Type} (now : Timestamp) (notificationId : Int)
    (userId : String) (notification_history : List NotificationRecord)
    (markAsRead : String → JsValue → W → Except String OpResult × W)
    (pathId : String) (body : MarkReadBody) (w : W) :
    List.Forall₂
        (fun before after =>
          sameContent before after ∧
            (sqlIntMin ≤ notificationId ∧ notificationId ≤ sqlIntMax →
              before.id = notificationId ∧ before.user_id = userId →
              after.is_read = true ∧ after.read_at = some now) ∧
            (¬ (before.id = notificationId ∧ before.user_id = userId) → after = before) ∧
            (after = before ∨
              after = { before with is_read := true, read_at := some now }))
        notification_history
        (markNotificationAsRead now notificationId userId notification_history).1 ∧
      (markNotificationAsRead now notificationId userId notification_history).1.length =
        notification_history.length ∧
      (markNotificationAsRead now notificationId userId notification_history).1.filter
          (fun row => !notificationKeyIs notificationId userId row) =
        notification_history.filter
          (fun row => !notificationKeyIs notificationId userId row) ∧
      (∀ row ∈ notification_history, row.id = notificationId → row.user_id ≠ userId →
        row ∈ (markNotificationAsRead now notificationId userId notification_history).1) ∧
      (∀ row ∈ (markNotificationAsRead now notificationId userId notification_history).1,
        row.user_id ≠ userId ∨ row.id ≠ notificationId → row ∈ notification_history) ∧
      (notificationId < sqlIntMin ∨ sqlIntMax < notificationId →
        (markNotificationAsRead now notificationId userId notification_history).1 =
            notification_history ∧
          ∃ message,
            (markNotificationAsRead now notificationId userId notification_history).2 =
              .error message) ∧
      (body.user_id.truthy = false →
        (putNotificationRead markAsRead pathId body w).response.status = 400 ∧
          (putNotificationRead markAsRead pathId body w).calls = [] ∧
          (putNotificationRead markAsRead pathId body w).world = w) ∧
      (body.user_id.truthy = true →
        (putNotificationRead markAsRead pathId body w).calls = [(pathId, body.user_id)]) := by
  have hothers := markNotificationAsRead_others now notificationId userId
    notification_history
  have hpoint := markNotificationAsRead_pointwise now notificationId userId
    notification_history
  have hnotkey : ∀ row : NotificationRecord,
      row.user_id ≠ userId ∨ row.id ≠ notificationId →
      (!notificationKeyIs notificationId userId row) = true := by
    intro row h
    rw [Bool.not_eq_true', Bool.eq_false_iff, Ne, notificationKeyIs_iff]
    rintro ⟨hid, huser⟩
    rcases h with h | h
    · exact h huser
    · exact h hid
  refine ⟨hpoint, hpoint.length_eq.symm, hothers, ?_, ?_,
    markNotificationAsRead_of_outOfRange now notificationId userId notification_history,
    ?_, ?_⟩
  · intro row hrow _ huser
    have hmem : row ∈ notification_history.filter
        (fun row => !notificationKeyIs notificationId userId row) :=
      List.mem_filter.mpr ⟨hrow, hnotkey row (Or.inl huser)⟩
    rw [← hothers] at hmem
    exact (List.mem_filter.mp hmem).1
  · intro row hrow h
    have hmem : row ∈ (markNotificationAsRead now notificationId userId
        notification_history).1.filter
        (fun row => !notificationKeyIs notificationId userId row) :=
      List.mem_filter.mpr ⟨hrow, hnotkey row h⟩
    rw [hothers] at hmem
    exact (List.mem_filter.mp hmem).1
  · intro h
    simp [putNotificationRead, h]
  · intro h
    rcases hm : markAsRead pathId body.user_id w with ⟨r, w1⟩
    cases r <;> simp [putNotificationRead, h, hm]

/-- C12, instantiated: bob passing the id of alice's notification 7 changes
nothing, alice's row is still there unread, and the route hands the path id and
the body's `user_id` to the function. -/
theorem markNotificationAsRead_frame_witness :
    (markNotificationAsRead 1000 7 "bob" sampleHistory).1 = sampleHistory ∧
      { id := 7, user_id := "alice", title := "New feedback", body := "Late delivery",
        data := "", feedback_id := some "fb-1", created_at := 500, is_read := false,
        read_at := none } ∈ (markNotificationAsRead 1000 7 "bob" sampleHistory).1 ∧
      (putNotificationRead (fun _ _ (w : Nat) => (.ok { success := true }, w + 1)) "7"
        { user_id := .string "bob" } 0).calls = [("7", .string "bob")] :=
  have h := markNotificationAsRead_frame 1000 7 "bob" sampleHistory
    (fun _ _ (w : Nat) => (.ok { success := true }, w + 1)) "7" { user_id := .string "bob" } 0
  ⟨by decide,
    h.2.2.2.1
      { id := 7, user_id := "alice", title := "New feedback", body := "Late delivery",
        data := "", feedback_id := some "fb-1", created_at := 500, is_read := false,
        read_at := none } (by decide) (by decide) (by decide),
    h.2.2.2.2.2.2.2 (by decide)⟩

end PushBackend
